import Mathlib

/-!
Verification of the NVMe-oF gateway control-plane service (`control/grpc.py`)
against its natural-language specification.

The Python service is shallowly embedded: every engine (SPDK RPC) call is a
parameter describing its outcome (an exception carrying a message, or a
returned value), the persisted record (OMAP state) is a typed key/value store
threaded explicitly, and each gateway operation becomes a pure Lean function
returning the gRPC status, the updated record, and the trace of engine calls
and lock acquisitions it performed.  Python exceptions that escape a handler
are modelled with `Except`.
-/

namespace NvmeofGw

/-! ## POSIX errno values used by the service -/

def ENOENT : Int := 2
def EBUSY : Int := 16
def EEXIST : Int := 17
def ENODEV : Int := 19
def EINVAL : Int := 22
def ENOKEY : Int := 126

/-! ## Error translator (`parse_json_exeption`)

An SPDK call failure is a raised Python exception.  `parse_json_exeption`
inspects: whether the exception is a `JSONRPCException`; whether its message
contains the marker `"Got JSON-RPC error response"` followed by
`"response:"` followed by text that `json.loads` accepts.  We abstract an
exception by exactly these observations. -/

/-- A Python error escaping the function under consideration
(uncaught by any `except` block on the path). -/
inductive PyError where
  /-- reading a local variable before assignment -/
  | unboundLocal
  /-- missing dictionary key / bad subscript -/
  | keyError
  /-- reading a name that is not in scope -/
  | nameError
deriving DecidableEq, Repr

/-- What `json.loads` produced for the text following the
`"response:"` tag of the exception message. -/
inductive LoadedResp where
  /-- a falsy JSON value (`null`, `{}`, `0`, `""`, `[]`) -/
  | falsy
  /-- a truthy dict carrying integer `code` and string `message` fields -/
  | obj (code : Int) (message : String)
  /-- a truthy value without a usable `code` field
  (subscripting it raises) -/
  | badObj
deriving DecidableEq, Repr

/-- An exception raised by an SPDK RPC call, abstracted by the features
`parse_json_exeption` branches on.  `loaded = none` means the marker or the
`"response:"` tag was absent from the message, or `json.loads` raised. -/
structure SpdkEx where
  isJSONRPC : Bool
  loaded : Option LoadedResp
deriving DecidableEq, Repr

/-- The value `parse_json_exeption` hands back to its caller, as far as the
callers observe it: `none` for Python `None` or any falsy parsed value
(every caller only tests truthiness and then reads `code`/`message`). -/
abbrev ParsedResp := Option (Int × String)

/-- `GatewayService.parse_json_exeption` (grpc.py:88-108).  The source
initializes a misspelled local `rsp = None`; the variable actually tested
and returned is `resp`, which is only assigned when both textual markers
are found and `json.loads` succeeds.  On every other path through a
`JSONRPCException` the trailing `if resp:` raises `UnboundLocalError`,
which escapes (the internal `try` only covers the locate/parse steps).
A negative `code` in a parsed error object is negated. -/
def parse_json_exeption (ex : SpdkEx) : Except PyError ParsedResp :=
  if !ex.isJSONRPC then
    .ok none
  else
    match ex.loaded with
    | none => .error .unboundLocal
    | some .falsy => .ok none
    | some (.obj code message) =>
        .ok (some (if code < 0 then -code else code, message))
    | some .badObj => .error .keyError

/-- The status every RPC handler computes in its `except` branch:
`status = errno.EINVAL; if resp: status = resp["code"]`. -/
def exnStatus (ex : SpdkEx) : Except PyError Int :=
  match parse_json_exeption ex with
  | .error e => .error e
  | .ok none => .ok EINVAL
  | .ok (some (c, _)) => .ok c

/-! ## Engine call outcomes -/

/-- Outcome of one SPDK RPC invocation as seen by the caller:
either it raises, or it returns a value. -/
inductive EngineRes (α : Type) where
  | exn (ex : SpdkEx)
  | ret (v : α)
deriving DecidableEq, Repr

/-- Outcome of an engine call whose returned value is only tested for
truthiness (`if not ret`). -/
abbrev EngineOut := EngineRes Bool

/-! ## The persisted record (OMAP state)

Modelled from the spec: the persisted store (`state.py`, not under `src/`)
"exposes: full local-state scan as a string-to-string mapping; add/remove
for subsystem, namespace, namespace-QoS, host, listener, each keyed by a
deterministic identity-derived string with a kind-specific prefix" (§6).
We model it as typed entry lists partitioned by key kind; `add` is a
key/value put (replacing an entry with the same key) and `remove` deletes
every entry with the key.  The JSON (de)serialization of entry values is
modelled as the typed fields the gateway code reads back. -/

/-- Persisted subsystem entry (the fields of the serialized
`create_subsystem` request that the gateway reads back). -/
structure SubsysEntry where
  subsystem_nqn : String
  serial_number : String
  enable_ha : Bool
deriving DecidableEq, Repr

/-- Persisted namespace entry.  `keyNsid` is the NSID in the store key
(the engine-assigned NSID at persist time); the remaining fields are the
serialized `namespace_add` request the gateway reads back — in particular
the `nsid` field is the *requested* NSID, 0 when the request left it
unset.  (The serialized `subsystem_nqn` field is always written equal to
the key's NQN and is identified with it.) -/
structure NsEntry where
  keyNsid : Nat
  subsystem_nqn : String
  nsid : Int
  anagrpid : Nat
  rbd_pool_name : String
  rbd_image_name : String
  block_size : Nat
  uuid : String
deriving DecidableEq, Repr

/-- The four optional QoS-limit fields of a `namespace_set_qos_limits`
request; `none` models an unset (`HasField` = false) field. -/
structure QosLimits where
  rw_ios_per_second : Option Nat
  rw_mbytes_per_second : Option Nat
  r_mbytes_per_second : Option Nat
  w_mbytes_per_second : Option Nat
deriving DecidableEq, Repr

/-- Persisted namespace-QoS entry. -/
structure QosEntry where
  subsystem_nqn : String
  nsid : Nat
  limits : QosLimits
deriving DecidableEq, Repr

/-- Persisted host-access entry. -/
structure HostEntry where
  subsystem_nqn : String
  host_nqn : String
deriving DecidableEq, Repr

/-- Persisted listener entry. -/
structure ListenerEntry where
  nqn : String
  gateway_name : String
  trtype : String
  traddr : String
  trsvcid : Nat
deriving DecidableEq, Repr

/-- The persisted record, partitioned by key kind. -/
structure GwState where
  subsystems : List SubsysEntry
  namespaces : List NsEntry
  nsQos : List QosEntry
  hosts : List HostEntry
  listeners : List ListenerEntry
deriving DecidableEq, Repr

/-- Modelled from the spec: store `add` for a subsystem (put by NQN key). -/
def GwState.addSubsystem (st : GwState) (e : SubsysEntry) : GwState :=
  let l := st.subsystems.filter (fun s => s.subsystem_nqn ≠ e.subsystem_nqn) ++ [e]
  { st with subsystems := l }

/-- Modelled from the spec: store `remove` for a subsystem key. -/
def GwState.removeSubsystem (st : GwState) (nqn : String) : GwState :=
  { st with subsystems := st.subsystems.filter (fun s => s.subsystem_nqn ≠ nqn) }

/-- Modelled from the spec: store `add` for a namespace (put by
(subsystem NQN, NSID) key). -/
def GwState.addNamespace (st : GwState) (e : NsEntry) : GwState :=
  let l := st.namespaces.filter
    (fun n => ¬(n.subsystem_nqn = e.subsystem_nqn ∧ n.keyNsid = e.keyNsid)) ++ [e]
  { st with namespaces := l }

/-- Modelled from the spec: store `remove` for a namespace key. -/
def GwState.removeNamespace (st : GwState) (nqn : String) (nsid : Nat) : GwState :=
  let l := st.namespaces.filter (fun n => ¬(n.subsystem_nqn = nqn ∧ n.keyNsid = nsid))
  { st with namespaces := l }

/-- Modelled from the spec: store `add` for a namespace-QoS entry. -/
def GwState.addNamespaceQos (st : GwState) (e : QosEntry) : GwState :=
  let l := st.nsQos.filter
    (fun q => ¬(q.subsystem_nqn = e.subsystem_nqn ∧ q.nsid = e.nsid)) ++ [e]
  { st with nsQos := l }

/-- Modelled from the spec: store `remove` for a namespace-QoS key. -/
def GwState.removeNamespaceQos (st : GwState) (nqn : String) (nsid : Nat) : GwState :=
  let l := st.nsQos.filter (fun q => ¬(q.subsystem_nqn = nqn ∧ q.nsid = nsid))
  { st with nsQos := l }

/-- Modelled from the spec: store `remove` for a host key. -/
def GwState.removeHost (st : GwState) (nqn hostnqn : String) : GwState :=
  let l := st.hosts.filter (fun h => ¬(h.subsystem_nqn = nqn ∧ h.host_nqn = hostnqn))
  { st with hosts := l }

/-- Modelled from the spec: store `add` for a host key. -/
def GwState.addHost (st : GwState) (e : HostEntry) : GwState :=
  let l := st.hosts.filter
    (fun h => ¬(h.subsystem_nqn = e.subsystem_nqn ∧ h.host_nqn = e.host_nqn)) ++ [e]
  { st with hosts := l }

/-- Listener identity key comparison. -/
def ListenerEntry.sameKey (l : ListenerEntry) (nqn gw trtype traddr : String)
    (port : Nat) : Bool :=
  l.nqn = nqn ∧ l.gateway_name = gw ∧ l.trtype = trtype ∧
    l.traddr = traddr ∧ l.trsvcid = port

/-- Modelled from the spec: store `add` for a listener key. -/
def GwState.addListener (st : GwState) (e : ListenerEntry) : GwState :=
  let l := st.listeners.filter
    (fun x => ¬x.sameKey e.nqn e.gateway_name e.trtype e.traddr e.trsvcid) ++ [e]
  { st with listeners := l }

/-- Modelled from the spec: store `remove` for a listener key. -/
def GwState.removeListener (st : GwState) (nqn gw trtype traddr : String)
    (port : Nat) : GwState :=
  let l := st.listeners.filter (fun x => ¬x.sameKey nqn gw trtype traddr port)
  { st with listeners := l }

/-- Lookup of the persisted namespace entry under
`build_namespace_key nqn nsid` (first entry with the key). -/
def GwState.findNs (st : GwState) (nqn : String) (nsid : Nat) : Option NsEntry :=
  st.namespaces.find? (fun n => n.subsystem_nqn = nqn ∧ n.keyNsid = nsid)

/-- Lookup of the persisted namespace-QoS entry under
`build_namespace_qos_key nqn nsid`. -/
def GwState.findQos (st : GwState) (nqn : String) (nsid : Nat) : Option QosEntry :=
  st.nsQos.find? (fun q => q.subsystem_nqn = nqn ∧ q.nsid = nsid)

/-- Lookup of the persisted subsystem entry under `build_subsystem_key nqn`. -/
def GwState.findSubsys (st : GwState) (nqn : String) : Option SubsysEntry :=
  st.subsystems.find? (fun s => s.subsystem_nqn = nqn)

/-! ## Engine calls and operation results -/

/-- One engine RPC invocation or lock acquisition, recorded in the trace of
an operation run. -/
inductive EngCall where
  | omapLockAcq | rpcLockAcq
  | createSubsys | deleteSubsys | getSubsystems
  | addNs | removeNs
  | createBdev | deleteBdev | resizeBdev | getIostat | setQosLimit
  | addListener | removeListener | setAnaState (grp : Nat)
  | addHostCall | removeHostCall | allowAnyHost (disable : Bool)
deriving DecidableEq, Repr

/-- Whether a trace event mutates engine state (lock acquisitions and pure
queries do not). -/
def EngCall.isMutating : EngCall → Bool
  | .omapLockAcq | .rpcLockAcq | .getSubsystems | .getIostat => false
  | _ => true

instance {ε α : Type} [DecidableEq ε] [DecidableEq α] : DecidableEq (Except ε α) :=
  fun a b =>
    match a, b with
    | .ok x, .ok y => decidable_of_iff (x = y) (by simp)
    | .ok _, .error _ => isFalse (by simp)
    | .error _, .ok _ => isFalse (by simp)
    | .error x, .error y => decidable_of_iff (x = y) (by simp)

/-- Result of running one gateway operation: the returned status (or a
Python error that escaped), the persisted record as mutated up to that
point, and the trace of engine calls and lock acquisitions performed. -/
structure OpResult where
  out : Except PyError Int
  st : GwState
  trace : List EngCall
deriving DecidableEq, Repr

/-- Result of an operation that also returns an NSID payload
(`pb2.nsid_status`). -/
structure NsOpResult where
  out : Except PyError (Int × Nat)
  st : GwState
  trace : List EngCall
deriving DecidableEq, Repr

/-- `execute_grpc_function` (grpc.py:154-159) runs an operation under both
locks.  Modelled from the spec: `OmapLock.execute_omap_locking_function`
(state.py, not under `src/`) first acquires the distributed OMAP lock, then
`_grpc_function_with_lock` takes the local RPC mutex, then the operation
body runs (§4.1).  We record the two acquisitions at the head of the trace. -/
def execute_grpc_function (r : OpResult) : OpResult :=
  { r with trace := EngCall.omapLockAcq :: EngCall.rpcLockAcq :: r.trace }

/-- `execute_grpc_function` for operations returning an NSID payload. -/
def execute_grpc_function_ns (r : NsOpResult) : NsOpResult :=
  { r with trace := EngCall.omapLockAcq :: EngCall.rpcLockAcq :: r.trace }

/-! ## Reserved discovery NQN -/

/-- Modelled from the spec: the one well-known reserved "discovery" NQN
(`GatewayConfig.DISCOVERY_NQN`, config.py, not under `src/`), "rejected as
a target of any create/delete/update" (§6). -/
def DISCOVERY_NQN : String := "nqn.2014-08.org.nvmexpress.discovery"

/-- `GatewayService.is_discovery_nqn` (grpc.py:256-257). -/
def is_discovery_nqn (nqn : String) : Bool := nqn = DISCOVERY_NQN

/-! ## Engine-side subsystem listings (`nvmf_get_subsystems` replies) -/

/-- One namespace in an engine subsystem listing (the fields the gateway
reads: `nsid`, `uuid`, `bdev_name`; an absent `bdev_name` is modelled as
`""`, which the callers treat as missing). -/
structure EngNs where
  nsid : Nat
  uuid : String
  bdev_name : String
deriving DecidableEq, Repr

/-- One subsystem in an engine listing. -/
structure EngSubsys where
  nqn : String
  namespaces : List EngNs
deriving DecidableEq, Repr

/-- The scan loop of `find_namespace_and_bdev_name` (grpc.py:1112-1134):
the first listed subsystem with the requested NQN is scanned and the last
of its namespaces passing both selector filters is kept (the inner loop
overwrites `found_ns` without breaking). -/
def findInSubsysList (nqn : String) (nsid : Int) (uuid : String) :
    List EngSubsys → Option EngNs
  | [] => none
  | s :: rest =>
      if s.nqn ≠ nqn then findInSubsysList nqn nsid uuid rest
      else
        (s.namespaces.filter (fun n =>
          (nsid ≤ 0 ∨ nsid = (n.nsid : Int)) ∧ (uuid = "" ∨ uuid = n.uuid))).getLast?

/-- `GatewayService.find_namespace_and_bdev_name` (grpc.py:1090-1136).
With `nsid ≤ 0` and no UUID it returns immediately, issuing no engine
call at all; an engine failure or empty listing also yields `(none, "")`.
The second component is the matched namespace's `bdev_name`. -/
def find_namespace_and_bdev_name (nqn : String) (nsid : Int) (uuid : String)
    (subsysOut : EngineRes (List EngSubsys)) :
    (Option EngNs × String) × List EngCall :=
  if nsid ≤ 0 ∧ uuid = "" then ((none, ""), [])
  else
    match subsysOut with
    | .exn _ => ((none, ""), [.getSubsystems])
    | .ret l =>
        if l = [] then ((none, ""), [.getSubsystems])
        else
          match findInSubsysList nqn nsid uuid l with
          | none => ((none, ""), [.getSubsystems])
          | some n => ((some n, n.bdev_name), [.getSubsystems])

/-! ## Block-device operations -/

/-- `GatewayService.create_bdev` (grpc.py:161-197).  `out` is the outcome
of `bdev_rbd_create`; its returned value is the created bdev name (`""`
models a falsy result, "just in case SPDK failed with no exception").  On
success the reply carries the requested name and status 0.  (The
`_get_cluster` call made while building the RPC arguments is modelled by
`ClusterPool` below.) -/
def create_bdev (name : String) (out : EngineRes String) :
    Except PyError (Int × String) × List EngCall :=
  match out with
  | .exn ex =>
      (match exnStatus ex with
       | .error e => .error e
       | .ok c => .ok (c, ""), [.createBdev])
  | .ret bdev_name =>
      if bdev_name = "" then (.ok (EINVAL, ""), [.createBdev])
      else (.ok (0, name), [.createBdev])

/-- `GatewayService.delete_bdev` (grpc.py:228-254). -/
def delete_bdev (out : EngineOut) : Except PyError Int × List EngCall :=
  match out with
  | .exn ex => (exnStatus ex, [.deleteBdev])
  | .ret t => (if t then .ok 0 else .ok EINVAL, [.deleteBdev])

/-- `GatewayService.resize_bdev` (grpc.py:199-226). -/
def resize_bdev (out : EngineOut) : Except PyError Int × List EngCall :=
  match out with
  | .exn ex => (exnStatus ex, [.resizeBdev])
  | .ret t => (if t then .ok 0 else .ok EINVAL, [.resizeBdev])

/-! ## Decimal rendering (Python `str` of a non-negative integer) -/

/-- Little-endian decimal digits of `n`, with explicit fuel so that the
definition is structurally recursive (hence evaluates by `decide`).
With `n ≤ fuel` it agrees with `Nat.digits 10 n`. -/
def decDigits : Nat → Nat → List Nat
  | 0, _ => []
  | _ + 1, 0 => []
  | fuel + 1, n + 1 => ((n + 1) % 10) :: decDigits fuel ((n + 1) / 10)

/-- Decimal string of a natural number, modelling Python's `str(int)`
inside f-strings; it renders the usual decimal numeral. -/
def decStr (n : Nat) : String :=
  if n = 0 then "0"
  else ((decDigits n n).reverse.map Nat.digitChar).asString

/-! ## Subsystem creation -/

/-- `GatewayService.subsystem_already_exists` (grpc.py:259-274): in live
mode, whether some persisted subsystem entry has the NQN. -/
def subsystem_already_exists (ctx : Bool) (st : GwState) (nqn : String) : Bool :=
  if !ctx then false
  else st.subsystems.any (fun s => s.subsystem_nqn = nqn)

/-- `GatewayService.serial_number_already_used` (grpc.py:276-290): in live
mode, the NQN of the first persisted subsystem entry using the serial. -/
def serial_number_already_used (ctx : Bool) (st : GwState) (serial : String) :
    Option String :=
  if !ctx then none
  else (st.subsystems.find? (fun s => s.serial_number = serial)).map (·.subsystem_nqn)

/-- A `create_subsystem` request (the fields the gateway logic reads). -/
structure CreateSubsysReq where
  subsystem_nqn : String
  serial_number : String
  enable_ha : Bool
  ana_reporting : Bool
deriving DecidableEq, Repr

/-- `GatewayService.create_subsystem_safe` (grpc.py:292-378).
`min_cntlid`/`max_cntlid` come from configuration; `randser` models the
random serial drawn when the request has none; `engineOut` is the
`nvmf_create_subsystem` outcome; `persistOk` whether
`gateway_state.add_subsystem` succeeds. -/
def create_subsystem_safe (st : GwState) (req : CreateSubsysReq)
    (min_cntlid max_cntlid : Int) (randser : Nat) (ctx : Bool)
    (engineOut : EngineOut) (persistOk : Bool) : OpResult :=
  if is_discovery_nqn req.subsystem_nqn then ⟨.ok EINVAL, st, []⟩
  else if req.enable_ha ∧ ¬req.ana_reporting then ⟨.ok EINVAL, st, []⟩
  else if min_cntlid > max_cntlid then ⟨.ok EINVAL, st, []⟩
  else
    let serial :=
      if req.serial_number = "" then "SPDK" ++ decStr randser else req.serial_number
    -- body of the `with omap_lock` block
    let dup := subsystem_already_exists ctx st req.subsystem_nqn
    let serialUser := if dup then none else serial_number_already_used ctx st serial
    if dup || (match serialUser with | some s => s ≠ "" | none => false) then
      ⟨.ok EEXIST, st, []⟩
    else
      match engineOut with
      | .exn ex => ⟨exnStatus ex, st, [.createSubsys]⟩
      | .ret t =>
          if !t then ⟨.ok EINVAL, st, [.createSubsys]⟩
          else if ctx then
            if persistOk then
              ⟨.ok 0, st.addSubsystem ⟨req.subsystem_nqn, serial, req.enable_ha⟩,
                [.createSubsys]⟩
            else ⟨.ok EINVAL, st, [.createSubsys]⟩
          else ⟨.ok 0, st, [.createSubsys]⟩

/-- `GatewayService.create_subsystem` (grpc.py:380-381). -/
def create_subsystem (st : GwState) (req : CreateSubsysReq)
    (min_cntlid max_cntlid : Int) (randser : Nat) (ctx : Bool)
    (engineOut : EngineOut) (persistOk : Bool) : OpResult :=
  execute_grpc_function
    (create_subsystem_safe st req min_cntlid max_cntlid randser ctx engineOut persistOk)

/-! ## Subsystem deletion -/

/-- `GatewayService.get_subsystem_namespaces` (grpc.py:383-398): the
serialized `nsid` field of every persisted namespace entry whose
serialized `subsystem_nqn` is `nqn`. -/
def get_subsystem_namespaces (st : GwState) (nqn : String) : List Int :=
  (st.namespaces.filter (fun n => n.subsystem_nqn = nqn)).map (·.nsid)

/-- `GatewayService.subsystem_has_listeners` (grpc.py:400-413). -/
def subsystem_has_listeners (st : GwState) (nqn : String) : Bool :=
  st.listeners.any (fun l => l.nqn = nqn)

/-- `GatewayService.remove_subsystem_from_state` (grpc.py:415-426): in
live mode removes the persisted subsystem entry; a store failure
(`persistOk = false`) yields EINVAL. -/
def remove_subsystem_from_state (st : GwState) (nqn : String)
    (ctx persistOk : Bool) : Int × GwState :=
  if !ctx then (0, st)
  else if persistOk then (0, st.removeSubsystem nqn) else (EINVAL, st)

/-- `GatewayService.delete_subsystem_safe` (grpc.py:428-458): the engine
delete runs first; on a raised error or falsy result the persisted entry
is removed all the same (before the error is even translated), and the
translated failure status is returned. -/
def delete_subsystem_safe (st : GwState) (nqn : String) (ctx : Bool)
    (engineOut : EngineOut) (persistOk : Bool) : OpResult :=
  match engineOut with
  | .exn ex =>
      let (_, st') := remove_subsystem_from_state st nqn ctx persistOk
      ⟨exnStatus ex, st', [.deleteSubsys]⟩
  | .ret t =>
      if !t then
        let (_, st') := remove_subsystem_from_state st nqn ctx persistOk
        ⟨.ok EINVAL, st', [.deleteSubsys]⟩
      else
        let (c, st') := remove_subsystem_from_state st nqn ctx persistOk
        ⟨.ok c, st', [.deleteSubsys]⟩

/-! ## Namespace attach / detach -/

def MAX_ANA_GROUPS : Nat := 4

/-- `GatewayService.create_namespace` (grpc.py:495-547): validates the
load-balancing group id and the NQN, then attaches the bdev as a
namespace.  `addNsOut` is the `nvmf_subsystem_add_ns` outcome; its value
is the assigned NSID, 0 modelling a falsy result.  Returns
(status, assigned NSID). -/
def create_namespace (nqn bdev_name : String) (nsid : Int) (anagrpid : Nat)
    (uuid : String) (ctx : Bool) (addNsOut : EngineRes Nat) :
    Except PyError (Int × Nat) × List EngCall :=
  if anagrpid > MAX_ANA_GROUPS then (.ok (EINVAL, 0), [])
  else if is_discovery_nqn nqn then (.ok (EINVAL, 0), [])
  else
    match addNsOut with
    | .exn ex =>
        (match exnStatus ex with
         | .error e => .error e
         | .ok c => .ok (c, 0), [.addNs])
    | .ret n =>
        if n = 0 then (.ok (EINVAL, 0), [.addNs])
        else (.ok (0, n), [.addNs])

/-- `GatewayService.remove_namespace` (grpc.py:757-792): the engine-side
`nvmf_subsystem_remove_ns` call. -/
def remove_namespace (nqn : String) (nsid : Nat) (ctx : Bool)
    (removeOut : EngineOut) : Except PyError Int × List EngCall :=
  if is_discovery_nqn nqn then (.ok EINVAL, [])
  else
    match removeOut with
    | .exn ex => (exnStatus ex, [.removeNs])
    | .ret t => (if t then .ok 0 else .ok EINVAL, [.removeNs])

/-- `GatewayService.remove_namespace_from_state` (grpc.py:736-755): in
live mode removes the persisted QoS entry (failures swallowed) and then
the persisted namespace entry (`persistOk = false` models a store failure
there, yielding EINVAL). -/
def remove_namespace_from_state (st : GwState) (nqn : String) (nsid : Nat)
    (ctx persistOk : Bool) : Int × GwState :=
  if !ctx then (0, st)
  else
    let st1 := st.removeNamespaceQos nqn nsid
    if persistOk then (0, st1.removeNamespace nqn nsid) else (EINVAL, st1)

/-- A `namespace_add` request (the fields the gateway logic reads). -/
structure NamespaceAddReq where
  subsystem_nqn : String
  nsid : Int
  uuid : String
  anagrpid : Nat
  rbd_pool_name : String
  rbd_image_name : String
  block_size : Nat
deriving DecidableEq, Repr

/-- `GatewayService.namespace_add_safe` (grpc.py:564-617): create a
uniquely named bdev, attach it as a namespace, persist on success.
`genUuid` models the `uuid.uuid4()` drawn when the request has no UUID;
`delOut` the compensating `delete_bdev` outcome (that call is wrapped in
a bare `try`, so even an escaping translator error is swallowed). -/
def namespace_add_safe (st : GwState) (req : NamespaceAddReq) (ctx : Bool)
    (genUuid : String) (createOut : EngineRes String) (delOut : EngineOut)
    (addNsOut : EngineRes Nat) (persistOk : Bool) : NsOpResult :=
  let uuid := if req.uuid = "" then genUuid else req.uuid
  let bdev_name := "bdev_" ++ uuid
  let (bdevRes, tr1) := create_bdev bdev_name createOut
  match bdevRes with
  | .error e => ⟨.error e, st, tr1⟩
  | .ok (bstatus, _) =>
      if bstatus ≠ 0 then
        let (_, tr2) := delete_bdev delOut
        ⟨.ok (bstatus, 0), st, tr1 ++ tr2⟩
      else
        let (nsRes, tr2) :=
          create_namespace req.subsystem_nqn bdev_name req.nsid req.anagrpid uuid ctx addNsOut
        match nsRes with
        | .error e => ⟨.error e, st, tr1 ++ tr2⟩
        | .ok (nstatus, nsid) =>
            if nstatus ≠ 0 then
              let (_, tr3) := delete_bdev delOut
              ⟨.ok (nstatus, 0), st, tr1 ++ tr2 ++ tr3⟩
            else if ctx then
              if persistOk then
                ⟨.ok (0, nsid),
                  st.addNamespace ⟨nsid, req.subsystem_nqn, req.nsid, req.anagrpid,
                    req.rbd_pool_name, req.rbd_image_name, req.block_size, uuid⟩,
                  tr1 ++ tr2⟩
              else ⟨.ok (EINVAL, 0), st, tr1 ++ tr2⟩
            else ⟨.ok (0, nsid), st, tr1 ++ tr2⟩

/-- `GatewayService.namespace_add` (grpc.py:619-621). -/
def namespace_add (st : GwState) (req : NamespaceAddReq) (ctx : Bool)
    (genUuid : String) (createOut : EngineRes String) (delOut : EngineOut)
    (addNsOut : EngineRes Nat) (persistOk : Bool) : NsOpResult :=
  execute_grpc_function_ns
    (namespace_add_safe st req ctx genUuid createOut delOut addNsOut persistOk)

/-- `GatewayService.namespace_delete_safe` (grpc.py:1165-1196): resolve
the namespace via the engine listing, detach it, and only then clean up
the persisted entries — a failed engine-side detach returns early,
leaving the persisted namespace entry in place. -/
def namespace_delete_safe (st : GwState) (nqn : String) (reqNsid : Int)
    (reqUuid : String) (ctx : Bool) (subsysOut : EngineRes (List EngSubsys))
    (removeOut : EngineOut) (delBdevOut : EngineOut) (persistOk : Bool) : OpResult :=
  let ((found, bdev_name), tr0) := find_namespace_and_bdev_name nqn reqNsid reqUuid subsysOut
  match found with
  | none => ⟨.ok ENODEV, st, tr0⟩
  | some ns =>
      let nsid := ns.nsid
      let (remRes, tr1) := remove_namespace nqn nsid ctx removeOut
      match remRes with
      | .error e => ⟨.error e, st, tr0 ++ tr1⟩
      | .ok c =>
          if c ≠ 0 then ⟨.ok c, st, tr0 ++ tr1⟩
          else
            let (_, st1) := remove_namespace_from_state st nqn nsid ctx persistOk
            if bdev_name ≠ "" then
              let (delRes, tr2) := delete_bdev delBdevOut
              match delRes with
              | .error e => ⟨.error e, st1, tr0 ++ tr1 ++ tr2⟩
              | .ok dc =>
                  if dc ≠ 0 then ⟨.ok dc, st1, tr0 ++ tr1 ++ tr2⟩
                  else ⟨.ok 0, st1, tr0 ++ tr1 ++ tr2⟩
            else ⟨.ok 0, st1, tr0 ++ tr1⟩

/-- `GatewayService.namespace_delete` (grpc.py:1198-1200). -/
def namespace_delete (st : GwState) (nqn : String) (reqNsid : Int)
    (reqUuid : String) (ctx : Bool) (subsysOut : EngineRes (List EngSubsys))
    (removeOut : EngineOut) (delBdevOut : EngineOut) (persistOk : Bool) : OpResult :=
  execute_grpc_function
    (namespace_delete_safe st nqn reqNsid reqUuid ctx subsysOut removeOut delBdevOut persistOk)

/-! ## Full subsystem deletion (with the force loop) -/

/-- The engine outcomes consumed by one `namespace_delete` issued from the
force loop of `delete_subsystem`. -/
structure NsDelOuts where
  subsysOut : EngineRes (List EngSubsys)
  removeOut : EngineOut
  delBdevOut : EngineOut
  persistOk : Bool

/-- The force loop of `delete_subsystem` (grpc.py:484-492): delete each
listed namespace individually; a nonzero status is only logged and the
loop continues (an escaping Python error would abort, as in the source). -/
def force_delete_namespaces (nqn : String) (ctx : Bool) (perNs : Int → NsDelOuts) :
    List Int → GwState → List EngCall → Except PyError Unit × GwState × List EngCall
  | [], st, tr => (.ok (), st, tr)
  | nsid :: rest, st, tr =>
      let o := perNs nsid
      let r := namespace_delete st nqn nsid "" ctx o.subsysOut o.removeOut o.delBdevOut o.persistOk
      match r.out with
      | .error e => (.error e, r.st, tr ++ r.trace)
      | .ok _ => force_delete_namespaces nqn ctx perNs rest r.st (tr ++ r.trace)

/-- `GatewayService.delete_subsystem` (grpc.py:460-493): discovery check,
then in live mode list the subsystem's persisted namespaces; without
`force` a non-empty list fails with EBUSY before any lock or engine call;
with `force` every namespace is deleted individually first, then
`delete_subsystem_safe` runs under the locks. -/
def delete_subsystem_run (st : GwState) (nqn : String) (force ctx : Bool)
    (perNs : Int → NsDelOuts) (engineOut : EngineOut) (persistOk : Bool) : OpResult :=
  if is_discovery_nqn nqn then ⟨.ok EINVAL, st, []⟩
  else
    let ns_list := if ctx then get_subsystem_namespaces st nqn else []
    if ¬force ∧ ns_list ≠ [] then ⟨.ok EBUSY, st, []⟩
    else
      match force_delete_namespaces nqn ctx perNs ns_list st [] with
      | (.error e, st1, tr1) => ⟨.error e, st1, tr1⟩
      | (.ok _, st1, tr1) =>
          let r := execute_grpc_function (delete_subsystem_safe st1 nqn ctx engineOut persistOk)
          ⟨r.out, r.st, tr1 ++ r.trace⟩

/-- The cumulative effect on the persisted record of the force loop of
`delete_subsystem` when every individual namespace deletion succeeds:
for each listed NSID, the QoS entry and then the namespace entry under
key `(nqn, nsid.toNat)` are dropped. -/
def applyDeletes (nqn : String) (L : List Int) (st : GwState) : GwState :=
  L.foldl (fun s i => (s.removeNamespaceQos nqn i.toNat).removeNamespace nqn i.toNat) st

/-! ## Change of load-balancing group -/

/-- `GatewayService.namespace_change_load_balancing_group_safe`
(grpc.py:623-730): under the locks, resolve the namespace from the engine
listing, cross-check the requested NSID/UUID, read the persisted entry,
detach the namespace, drop its persisted entries, and re-attach it under
the new group id (where `create_namespace` performs the only validation of
`anagrpid`); finally re-persist the entry with the new group.
`persistRemOk`/`persistAddOk` model the two store operations. -/
def namespace_change_load_balancing_group_safe (st : GwState) (nqn : String)
    (reqNsid : Int) (reqUuid : String) (anagrpid : Nat) (ctx : Bool)
    (subsysOut : EngineRes (List EngSubsys)) (removeOut : EngineOut)
    (addNsOut : EngineRes Nat) (persistRemOk persistAddOk : Bool) : OpResult :=
  let ((found, bdev0), tr0) := find_namespace_and_bdev_name nqn reqNsid reqUuid subsysOut
  match found with
  | none => ⟨.ok ENODEV, st, tr0⟩
  | some ns =>
      let uuid := ns.uuid
      let nsid := ns.nsid
      if reqNsid ≠ 0 ∧ reqNsid ≠ (nsid : Int) then ⟨.ok ENODEV, st, tr0⟩
      else if reqUuid ≠ "" ∧ reqUuid ≠ uuid then ⟨.ok ENODEV, st, tr0⟩
      else
        let bdev_name := if bdev0 = "" then "bdev_" ++ uuid else bdev0
        match st.findNs nqn nsid with
        | none => ⟨.ok ENOENT, st, tr0⟩
        | some ns_entry =>
            let (remRes, tr1) := remove_namespace nqn nsid ctx removeOut
            match remRes with
            | .error e => ⟨.error e, st, tr0 ++ tr1⟩
            | .ok c =>
                if c ≠ 0 then ⟨.ok c, st, tr0 ++ tr1⟩
                else
                  let st1 :=
                    if nsid ≠ 0 then (remove_namespace_from_state st nqn nsid ctx persistRemOk).2
                    else st
                  let (cnRes, tr2) :=
                    create_namespace nqn bdev_name (nsid : Int) anagrpid uuid ctx addNsOut
                  match cnRes with
                  | .error e => ⟨.error e, st1, tr0 ++ tr1 ++ tr2⟩
                  | .ok (nc, _) =>
                      if nc ≠ 0 then ⟨.ok nc, st1, tr0 ++ tr1 ++ tr2⟩
                      else if ctx then
                        if persistAddOk then
                          ⟨.ok 0,
                            st1.addNamespace ⟨nsid, nqn, ns_entry.nsid, anagrpid,
                              ns_entry.rbd_pool_name, ns_entry.rbd_image_name,
                              ns_entry.block_size, ns_entry.uuid⟩,
                            tr0 ++ tr1 ++ tr2⟩
                        else ⟨.ok EINVAL, st1, tr0 ++ tr1 ++ tr2⟩
                      else ⟨.ok 0, st1, tr0 ++ tr1 ++ tr2⟩

/-- `GatewayService.namespace_change_load_balancing_group`
(grpc.py:732-734). -/
def namespace_change_load_balancing_group (st : GwState) (nqn : String)
    (reqNsid : Int) (reqUuid : String) (anagrpid : Nat) (ctx : Bool)
    (subsysOut : EngineRes (List EngSubsys)) (removeOut : EngineOut)
    (addNsOut : EngineRes Nat) (persistRemOk persistAddOk : Bool) : OpResult :=
  execute_grpc_function
    (namespace_change_load_balancing_group_safe st nqn reqNsid reqUuid anagrpid ctx
      subsysOut removeOut addNsOut persistRemOk persistAddOk)

/-! ## Namespace resize and IO stats -/

/-- `GatewayService.namespace_resize` (grpc.py:1138-1163). -/
def namespace_resize (st : GwState) (nqn : String) (reqNsid : Int)
    (reqUuid : String) (subsysOut : EngineRes (List EngSubsys))
    (resizeOut : EngineOut) : OpResult :=
  let ((found, bdev_name), tr0) := find_namespace_and_bdev_name nqn reqNsid reqUuid subsysOut
  match found with
  | none => ⟨.ok ENODEV, st, tr0⟩
  | some _ =>
      if bdev_name = "" then ⟨.ok ENODEV, st, tr0⟩
      else
        let (r, tr1) := resize_bdev resizeOut
        ⟨r, st, tr0 ++ tr1⟩

/-- Abstraction of parsing a truthy `bdev_get_iostat` reply. -/
inductive IostatParse where
  /-- `ret["bdevs"]` raises (key absent) -/
  | missingBdevs
  /-- `ret["bdevs"]` is falsy -/
  | emptyBdevs
  /-- a per-bdev stat field is missing -/
  | fieldsBad
  /-- every consumed field parses -/
  | fieldsOk
deriving DecidableEq, Repr

/-- `GatewayService.namespace_get_io_stats` (grpc.py:896-981).  A reply
parse failure enters an `except` handler whose log statement interpolates
a variable `s` that is not in scope in this function, so those paths
raise `NameError` (modelled as `PyError.keyError`'s sibling; see
`PyError.nameError`). -/
def namespace_get_io_stats (st : GwState) (nqn : String) (reqNsid : Int)
    (reqUuid : String) (subsysOut : EngineRes (List EngSubsys))
    (iostatOut : EngineRes (Option IostatParse)) : OpResult :=
  let ((found, bdev_name), tr0) := find_namespace_and_bdev_name nqn reqNsid reqUuid subsysOut
  match found with
  | none => ⟨.ok ENODEV, st, tr0⟩
  | some _ =>
      if bdev_name = "" then ⟨.ok ENODEV, st, tr0⟩
      else
        match iostatOut with
        | .exn ex => ⟨exnStatus ex, st, tr0 ++ [.getIostat]⟩
        | .ret none => ⟨.ok EINVAL, st, tr0 ++ [.getIostat]⟩
        | .ret (some p) =>
            match p with
            | .missingBdevs => ⟨.error .nameError, st, tr0 ++ [.getIostat]⟩
            | .emptyBdevs => ⟨.ok ENODEV, st, tr0 ++ [.getIostat]⟩
            | .fieldsBad => ⟨.error .nameError, st, tr0 ++ [.getIostat]⟩
            | .fieldsOk => ⟨.ok 0, st, tr0 ++ [.getIostat]⟩

/-! ## QoS limits -/

/-- A `namespace_set_qos_limits` request. -/
structure QosReq where
  subsystem_nqn : String
  nsid : Int
  uuid : String
  limits : QosLimits
deriving DecidableEq, Repr

/-- The merge step of `namespace_set_qos_limits_safe` (grpc.py:1037-1046):
each limit field left unset in the request takes the previously stored
value when one exists. -/
def merge_qos (req prev : QosLimits) : QosLimits where
  rw_ios_per_second := req.rw_ios_per_second.orElse (fun _ => prev.rw_ios_per_second)
  rw_mbytes_per_second := req.rw_mbytes_per_second.orElse (fun _ => prev.rw_mbytes_per_second)
  r_mbytes_per_second := req.r_mbytes_per_second.orElse (fun _ => prev.r_mbytes_per_second)
  w_mbytes_per_second := req.w_mbytes_per_second.orElse (fun _ => prev.w_mbytes_per_second)

/-- `GatewayService.namespace_set_qos_limits_safe` (grpc.py:996-1084):
resolve the namespace, merge the requested limits with any stored QoS
record (live mode only), apply the engine call, and persist the merged
record under the engine-resolved NSID. -/
def namespace_set_qos_limits_safe (st : GwState) (req : QosReq) (ctx : Bool)
    (subsysOut : EngineRes (List EngSubsys)) (setQosOut : EngineOut)
    (persistOk : Bool) : OpResult :=
  let ((found, bdev_name), tr0) :=
    find_namespace_and_bdev_name req.subsystem_nqn req.nsid req.uuid subsysOut
  match found with
  | none => ⟨.ok ENODEV, st, tr0⟩
  | some ns =>
      if bdev_name = "" then ⟨.ok ENODEV, st, tr0⟩
      else
        let nsid := ns.nsid
        let ns_qos_entry :=
          if ctx then (st.findQos req.subsystem_nqn nsid).map (·.limits) else none
        let merged :=
          match ns_qos_entry with
          | some prev => merge_qos req.limits prev
          | none => req.limits
        match setQosOut with
        | .exn ex => ⟨exnStatus ex, st, tr0 ++ [.setQosLimit]⟩
        | .ret t =>
            if !t then ⟨.ok EINVAL, st, tr0 ++ [.setQosLimit]⟩
            else if ctx then
              if persistOk then
                ⟨.ok 0, st.addNamespaceQos ⟨req.subsystem_nqn, nsid, merged⟩,
                  tr0 ++ [.setQosLimit]⟩
              else ⟨.ok EINVAL, st, tr0 ++ [.setQosLimit]⟩
            else ⟨.ok 0, st, tr0 ++ [.setQosLimit]⟩

/-- `GatewayService.namespace_set_qos_limits` (grpc.py:1086-1088). -/
def namespace_set_qos_limits (st : GwState) (req : QosReq) (ctx : Bool)
    (subsysOut : EngineRes (List EngSubsys)) (setQosOut : EngineOut)
    (persistOk : Bool) : OpResult :=
  execute_grpc_function
    (namespace_set_qos_limits_safe st req ctx subsysOut setQosOut persistOk)

/-! ## Host access -/

/-- `GatewayService.remove_host_from_state` (grpc.py:1303-1316). -/
def remove_host_from_state (st : GwState) (nqn hostnqn : String)
    (ctx persistOk : Bool) : Int × GwState :=
  if !ctx then (0, st)
  else if persistOk then (0, st.removeHost nqn hostnqn) else (EINVAL, st)

/-- `GatewayService.remove_host_safe` (grpc.py:1318-1389): host NQN `"*"`
toggles "allow any host" off, any other host NQN is removed from the
subsystem; on a raised error or falsy engine result the persisted host
entry is removed all the same. -/
def remove_host_safe (st : GwState) (nqn hostnqn : String) (ctx : Bool)
    (engineOut : EngineOut) (persistOk : Bool) : OpResult :=
  if is_discovery_nqn nqn then ⟨.ok EINVAL, st, []⟩
  else if is_discovery_nqn hostnqn then ⟨.ok EINVAL, st, []⟩
  else
    let call := if hostnqn = "*" then EngCall.allowAnyHost true else EngCall.removeHostCall
    match engineOut with
    | .exn ex =>
        let (_, st') := remove_host_from_state st nqn hostnqn ctx persistOk
        ⟨exnStatus ex, st', [call]⟩
    | .ret t =>
        if !t then
          let (_, st') := remove_host_from_state st nqn hostnqn ctx persistOk
          ⟨.ok EINVAL, st', [call]⟩
        else
          let (c, st') := remove_host_from_state st nqn hostnqn ctx persistOk
          ⟨.ok c, st', [call]⟩

/-- `GatewayService.remove_host` (grpc.py:1391-1392). -/
def remove_host (st : GwState) (nqn hostnqn : String) (ctx : Bool)
    (engineOut : EngineOut) (persistOk : Bool) : OpResult :=
  execute_grpc_function (remove_host_safe st nqn hostnqn ctx engineOut persistOk)

/-! ## Listeners -/

/-- `GatewayService.matching_listener_exists` (grpc.py:1574-1582). -/
def matching_listener_exists (ctx : Bool) (st : GwState)
    (nqn gw trtype traddr : String) (port : Nat) : Bool :=
  ctx && st.listeners.any (fun l => l.sameKey nqn gw trtype traddr port)

/-- The `auto_ha_state` request field (`pb2.AutoHAState`). -/
inductive AutoHAState where
  | haUnset | haOff | haOn
deriving DecidableEq, Repr

/-- The HA-group loop of `create_listener_safe` (grpc.py:1686-1706):
set the ANA state of each group in turn to `"inaccessible"`; the first
raised error stops the loop (the returned value is never checked).
`anaOuts g = some ex` means the call for group `g` raised `ex`. -/
def set_ana_states (anaOuts : Nat → Option SpdkEx) :
    List Nat → Option SpdkEx × List EngCall
  | [] => (none, [])
  | g :: rest =>
      match anaOuts g with
      | some ex => (some ex, [.setAnaState g])
      | none =>
          let (r, tr) := set_ana_states anaOuts rest
          (r, .setAnaState g :: tr)

/-- `GatewayService.create_listener_safe` (grpc.py:1584-1722).
`trtypeOk`/`adrfamOk`/`haStateOk` model the enum-key lookups;
`gateway_name` is this gateway's own identity.  When HA is enabled for
the owning subsystem (from the request's `auto_ha_state` in replay mode,
from the persisted subsystem entry in live mode), groups 1..4 are set to
"inaccessible" after the engine accepted the listener; a failure there
returns the translated status without removing the listener from the
engine and without persisting it. -/
def create_listener_safe (st : GwState) (nqn gw gateway_name : String)
    (trtypeOk adrfamOk haStateOk : Bool) (auto_ha_state : AutoHAState)
    (trtype traddr : String) (port : Nat) (ctx : Bool)
    (addListenerOut : EngineOut) (anaOuts : Nat → Option SpdkEx)
    (persistOk : Bool) : OpResult :=
  if ¬trtypeOk then ⟨.ok ENOKEY, st, []⟩
  else if ¬adrfamOk then ⟨.ok ENOKEY, st, []⟩
  else if ¬haStateOk then ⟨.ok ENOKEY, st, []⟩
  else if is_discovery_nqn nqn then ⟨.ok EINVAL, st, []⟩
  else if gw = gateway_name then
    if matching_listener_exists ctx st nqn gw trtype traddr port then
      ⟨.ok EEXIST, st, []⟩
    else
      match addListenerOut with
      | .exn ex => ⟨exnStatus ex, st, [.addListener]⟩
      | .ret t =>
          if !t then ⟨.ok EINVAL, st, [.addListener]⟩
          else
            let enable_ha :=
              match auto_ha_state with
              | .haUnset => ((st.findSubsys nqn).map (·.enable_ha)).getD false
              | .haOff => false
              | .haOn => true
            let (anaFail, tr2) :=
              if enable_ha = true then set_ana_states anaOuts [1, 2, 3, 4] else (none, [])
            match anaFail with
            | some ex => ⟨exnStatus ex, st, .addListener :: tr2⟩
            | none =>
                if ctx then
                  if persistOk then
                    ⟨.ok 0, st.addListener ⟨nqn, gw, trtype, traddr, port⟩,
                      .addListener :: tr2⟩
                  else ⟨.ok EINVAL, st, .addListener :: tr2⟩
                else ⟨.ok 0, st, .addListener :: tr2⟩
  else ⟨.ok ENOENT, st, []⟩

/-- `GatewayService.create_listener` (grpc.py:1724-1725). -/
def create_listener (st : GwState) (nqn gw gateway_name : String)
    (trtypeOk adrfamOk haStateOk : Bool) (auto_ha_state : AutoHAState)
    (trtype traddr : String) (port : Nat) (ctx : Bool)
    (addListenerOut : EngineOut) (anaOuts : Nat → Option SpdkEx)
    (persistOk : Bool) : OpResult :=
  execute_grpc_function
    (create_listener_safe st nqn gw gateway_name trtypeOk adrfamOk haStateOk
      auto_ha_state trtype traddr port ctx addListenerOut anaOuts persistOk)

/-- `GatewayService.remove_listener_from_state` (grpc.py:1727-1740). -/
def remove_listener_from_state (st : GwState) (nqn gw trtype traddr : String)
    (port : Nat) (ctx persistOk : Bool) : Int × GwState :=
  if !ctx then (0, st)
  else if persistOk then (0, st.removeListener nqn gw trtype traddr port)
  else (EINVAL, st)

/-- `GatewayService.delete_listener_safe` (grpc.py:1742-1806): only the
owning gateway may delete; on a raised error or falsy engine result the
persisted listener entry is removed all the same. -/
def delete_listener_safe (st : GwState) (nqn gw gateway_name : String)
    (trtypeOk adrfamOk : Bool) (trtype traddr : String) (port : Nat)
    (ctx : Bool) (engineOut : EngineOut) (persistOk : Bool) : OpResult :=
  if ¬trtypeOk then ⟨.ok ENOKEY, st, []⟩
  else if ¬adrfamOk then ⟨.ok ENOKEY, st, []⟩
  else if is_discovery_nqn nqn then ⟨.ok EINVAL, st, []⟩
  else if gw = gateway_name then
    match engineOut with
    | .exn ex =>
        let (_, st') := remove_listener_from_state st nqn gw trtype traddr port ctx persistOk
        ⟨exnStatus ex, st', [.removeListener]⟩
    | .ret t =>
        if !t then
          let (_, st') := remove_listener_from_state st nqn gw trtype traddr port ctx persistOk
          ⟨.ok EINVAL, st', [.removeListener]⟩
        else
          let (c, st') := remove_listener_from_state st nqn gw trtype traddr port ctx persistOk
          ⟨.ok c, st', [.removeListener]⟩
  else ⟨.ok ENOENT, st, []⟩

/-- `GatewayService.delete_listener` (grpc.py:1808-1809). -/
def delete_listener (st : GwState) (nqn gw gateway_name : String)
    (trtypeOk adrfamOk : Bool) (trtype traddr : String) (port : Nat)
    (ctx : Bool) (engineOut : EngineOut) (persistOk : Bool) : OpResult :=
  execute_grpc_function
    (delete_listener_safe st nqn gw gateway_name trtypeOk adrfamOk trtype traddr
      port ctx engineOut persistOk)

/-! ## Cluster context pool -/

/-- The name of the `k`-th allocated cluster context
(`f"cluster_context_{len(self.clusters)}"`, grpc.py:140). -/
def cluster_context_name (k : Nat) : String := "cluster_context_" ++ decStr k

/-- The pool state (`self.clusters` insertion-ordered dict of per-context
volume counters, and `self.current_cluster`). -/
structure ClusterPool where
  clusters : List (String × Nat)
  current_cluster : Option String
deriving DecidableEq, Repr

/-- `_init_cluster_context` (grpc.py:110-120). -/
def init_cluster_context : ClusterPool := ⟨[], none⟩

/-- `GatewayService._alloc_cluster` (grpc.py:138-148): the new context's
name; the engine registration call is assumed to succeed (an allocation
failure is fatal to the caller's whole operation, §4.2). -/
def _alloc_cluster (p : ClusterPool) : String :=
  cluster_context_name p.clusters.length

/-- Dict read `self.clusters[name]` (0 default is never exercised: the
name is always a key). -/
def countOf (l : List (String × Nat)) (name : String) : Nat :=
  ((l.find? (fun e => e.1 = name)).map (·.2)).getD 0

/-- Dict update `self.clusters[name] += 1`. -/
def bumpCount : List (String × Nat) → String → List (String × Nat)
  | [], _ => []
  | (n, c) :: rest, name =>
      if n = name then (n, c + 1) :: rest else (n, c) :: bumpCount rest name

/-- `GatewayService._get_cluster` (grpc.py:122-136).  The source recurses
once after clearing `current_cluster`; that recursive call immediately
takes the `current_cluster is None` branch, inlined here. -/
def _get_cluster (bound : Nat) (p : ClusterPool) : String × ClusterPool :=
  match p.current_cluster with
  | none =>
      let name := _alloc_cluster p
      (name, ⟨p.clusters ++ [(name, 1)], some name⟩)
  | some cur =>
      if countOf p.clusters cur ≥ bound then
        let p' : ClusterPool := ⟨p.clusters, none⟩
        let name := _alloc_cluster p'
        (name, ⟨p'.clusters ++ [(name, 1)], some name⟩)
      else
        (cur, ⟨bumpCount p.clusters cur, p.current_cluster⟩)

/-- The names handed out and the pool after `n` successive `_get_cluster`
acquisitions from the initial empty pool, with `bound` the configured
`bdevs_per_cluster`. -/
def acquireAll (bound : Nat) : Nat → List String × ClusterPool
  | 0 => ([], init_cluster_context)
  | n + 1 =>
      let (tr, p) := acquireAll bound n
      let (name, p') := _get_cluster bound p
      (tr ++ [name], p')

/-! ## Helper lemmas about the persisted store -/

theorem find?_of_filter_neg {α : Type} (l : List α) (p : α → Prop) [DecidablePred p] :
    (l.filter (fun x => decide (¬ p x))).find? (fun x => decide (p x)) = none := by
  rw [List.find?_eq_none]
  intro x hx
  rcases List.mem_filter.mp hx with ⟨-, hnx⟩
  simpa using of_decide_eq_true hnx

theorem find?_of_filter_neg_append {α : Type} (l : List α) (p : α → Prop)
    [DecidablePred p] (e : α) (he : p e) :
    ((l.filter (fun x => decide (¬ p x))) ++ [e]).find? (fun x => decide (p x)) = some e := by
  rw [List.find?_append, find?_of_filter_neg]
  simp [List.find?_cons, he]

theorem findSubsys_removeSubsystem (st : GwState) (nqn : String) :
    (st.removeSubsystem nqn).findSubsys nqn = none := by
  classical
  rw [GwState.removeSubsystem, GwState.findSubsys]
  rw [List.find?_eq_none]
  intro x hx
  rcases List.mem_filter.mp hx with ⟨-, hnx⟩
  simpa using of_decide_eq_true hnx

theorem findNs_removeNamespace (st : GwState) (nqn : String) (nsid : Nat) :
    (st.removeNamespace nqn nsid).findNs nqn nsid = none := by
  classical
  rw [GwState.removeNamespace, GwState.findNs]
  rw [List.find?_eq_none]
  intro x hx
  rcases List.mem_filter.mp hx with ⟨-, hnx⟩
  simpa using of_decide_eq_true hnx

theorem findQos_addNamespaceQos (st : GwState) (e : QosEntry) :
    (st.addNamespaceQos e).findQos e.subsystem_nqn e.nsid = some e := by
  classical
  rw [GwState.addNamespaceQos, GwState.findQos]
  rw [List.find?_append]
  have h1 : (st.nsQos.filter
      (fun q => decide ¬(q.subsystem_nqn = e.subsystem_nqn ∧ q.nsid = e.nsid))).find?
      (fun q => decide (q.subsystem_nqn = e.subsystem_nqn ∧ q.nsid = e.nsid)) = none := by
    rw [List.find?_eq_none]
    intro x hx
    rcases List.mem_filter.mp hx with ⟨-, hnx⟩
    simpa using of_decide_eq_true hnx
  rw [h1]
  simp [List.find?_cons]

/-! ## Claim C2 -/

/-- C2: the spec claims that an engine failure without a structured
(code, message) object after the textual marker makes the translator
yield no parsed response and the operation return EINVAL, and that a
found structured object has a negative code normalized to its positive
value and returned as the status.  The second half holds (conjuncts 3
and 4), but the first is a code bug: for a `JSONRPCException` without a
parsable structured error, `parse_json_exeption` raises
`UnboundLocalError` on `resp` (the initialization writes a misspelled
`rsp`), so the operation crashes instead of returning EINVAL
(conjuncts 1 and 2 evaluate `create_bdev` at such a failure). -/
theorem C2_error_translator :
    parse_json_exeption { isJSONRPC := true, loaded := none } =
      .error .unboundLocal ∧
    (create_bdev "bdev_x" (.exn { isJSONRPC := true, loaded := none })).1 =
      .error .unboundLocal ∧
    (∀ (c : Int) (m : String),
      parse_json_exeption { isJSONRPC := true, loaded := some (.obj c m) } =
        .ok (some (if c < 0 then -c else c, m))) ∧
    (∀ (c : Int) (m name : String),
      (create_bdev name (.exn { isJSONRPC := true, loaded := some (.obj c m) })).1 =
        .ok (if c < 0 then -c else c, "")) := by
  refine ⟨rfl, rfl, fun c m => rfl, fun c m name => ?_⟩
  simp [create_bdev, exnStatus, parse_json_exeption]

/-! ## Claim C10 -/

/-- C10: every namespace-addressed operation that resolves a namespace by
identifier (delete, resize, IO stats, set-QoS-limits, change load
balancing group), when given `nsid ≤ 0` and an empty UUID, returns
ENODEV with the persisted record unchanged and without issuing any
engine call at all (the lookup bails out before even querying the
engine; the traces below contain only the lock acquisitions of the
operation wrappers). -/
theorem C10_empty_selector_enodev (st : GwState) (nqn : String)
    (reqNsid : Int) (reqUuid : String) (ctx : Bool)
    (subsysOut : EngineRes (List EngSubsys)) (removeOut delBdevOut : EngineOut)
    (persistOk : Bool) (resizeOut : EngineOut)
    (iostatOut : EngineRes (Option IostatParse)) (limits : QosLimits)
    (setQosOut : EngineOut) (anagrpid : Nat) (addNsOut : EngineRes Nat)
    (persistRemOk persistAddOk : Bool)
    (hn : reqNsid ≤ 0) (hu : reqUuid = "") :
    namespace_delete st nqn reqNsid reqUuid ctx subsysOut removeOut delBdevOut persistOk =
      ⟨.ok ENODEV, st, [.omapLockAcq, .rpcLockAcq]⟩ ∧
    namespace_resize st nqn reqNsid reqUuid subsysOut resizeOut =
      ⟨.ok ENODEV, st, []⟩ ∧
    namespace_get_io_stats st nqn reqNsid reqUuid subsysOut iostatOut =
      ⟨.ok ENODEV, st, []⟩ ∧
    namespace_set_qos_limits st ⟨nqn, reqNsid, reqUuid, limits⟩ ctx subsysOut setQosOut persistOk =
      ⟨.ok ENODEV, st, [.omapLockAcq, .rpcLockAcq]⟩ ∧
    namespace_change_load_balancing_group st nqn reqNsid reqUuid anagrpid ctx
        subsysOut removeOut addNsOut persistRemOk persistAddOk =
      ⟨.ok ENODEV, st, [.omapLockAcq, .rpcLockAcq]⟩ := by
  have hfind : find_namespace_and_bdev_name nqn reqNsid reqUuid subsysOut = ((none, ""), []) := by
    rw [find_namespace_and_bdev_name.eq_def, if_pos ⟨hn, hu⟩]
  refine ⟨?_, ?_, ?_, ?_, ?_⟩
  · rw [namespace_delete, namespace_delete_safe, hfind]; rfl
  · rw [namespace_resize, hfind]
  · rw [namespace_get_io_stats, hfind]
  · rw [namespace_set_qos_limits, namespace_set_qos_limits_safe]
    simp only [hfind]
    rfl
  · rw [namespace_change_load_balancing_group,
      namespace_change_load_balancing_group_safe, hfind]
    rfl

/-- Witness for C10 at a concrete input. -/
theorem C10_empty_selector_enodev_witness :
    namespace_delete ⟨[], [], [], [], []⟩ "nqn.test.1" 0 "" true (.ret []) (.ret true)
        (.ret true) true =
      ⟨.ok ENODEV, ⟨[], [], [], [], []⟩, [.omapLockAcq, .rpcLockAcq]⟩ :=
  (C10_empty_selector_enodev ⟨[], [], [], [], []⟩ "nqn.test.1" 0 "" true (.ret [])
    (.ret true) (.ret true) true (.ret true) (.ret none) ⟨none, none, none, none⟩
    (.ret true) 1 (.ret 1) true true (by decide) rfl).1

/-! ## Claim C7 -/

/-- C7: when the backing-device creation succeeds (`create_bdev` returned
the nonempty name `b`) but the namespace attachment fails with status
`c ≠ 0`, `namespace_add` deletes the just-created bdev (`deleteBdev` in
the trace) whatever that deletion's own outcome `delOut` is (failures are
swallowed), returns the attachment status `c`, and leaves the persisted
record untouched. -/
theorem C7_namespace_add_rollback (st : GwState) (req : NamespaceAddReq) (ctx : Bool)
    (genUuid b : String) (delOut : EngineOut) (addNsOut : EngineRes Nat)
    (persistOk : Bool) (c : Int) (tr2 : List EngCall)
    (hb : ¬ b = "")
    (hc : create_namespace req.subsystem_nqn
        ("bdev_" ++ (if req.uuid = "" then genUuid else req.uuid)) req.nsid req.anagrpid
        (if req.uuid = "" then genUuid else req.uuid) ctx addNsOut = (.ok (c, 0), tr2))
    (hcne : ¬ c = 0) :
    namespace_add st req ctx genUuid (.ret b) delOut addNsOut persistOk =
      ⟨.ok (c, 0), st,
        .omapLockAcq :: .rpcLockAcq :: [.createBdev] ++ tr2 ++ [.deleteBdev]⟩ := by
  rw [namespace_add, namespace_add_safe]
  rw [create_bdev]
  rw [if_neg hb]
  simp only [hc]
  rw [if_neg (by simp)]
  rw [if_pos hcne]
  rw [delete_bdev.eq_def]
  cases delOut with
  | exn ex => rfl
  | ret t => cases t <;> rfl

/-- Witness for C7 at a concrete input (the attachment returns a falsy
NSID, so the attach step fails with EINVAL after the bdev was created;
the compensating deletion itself fails, which is swallowed). -/
theorem C7_namespace_add_rollback_witness :
    namespace_add ⟨[], [], [], [], []⟩ ⟨"nqn.test.1", 0, "u", 1, "p", "i", 512⟩ true "g"
        (.ret "bdev_u") (.ret false) (.ret 0) true =
      ⟨.ok (EINVAL, 0), ⟨[], [], [], [], []⟩,
        .omapLockAcq :: .rpcLockAcq :: [.createBdev] ++ [.addNs] ++ [.deleteBdev]⟩ :=
  C7_namespace_add_rollback ⟨[], [], [], [], []⟩ ⟨"nqn.test.1", 0, "u", 1, "p", "i", 512⟩
    true "g" "bdev_u" (.ret false) (.ret 0) true EINVAL [.addNs] (by decide)
    (by decide) (by decide)

/-! ## Claim C8 -/

/-- C8: in live mode, after a successful `namespace_set_qos_limits` on a
namespace that has a stored QoS record, the record persisted afterwards
holds, for each of the four limit fields, the requested value when the
request set the field and the previously stored value otherwise; for a
namespace with no stored QoS record, exactly the requested fields are
recorded. -/
theorem C8_qos_limits_merge (st : GwState) (nqn : String) (reqNsid : Int)
    (reqUuid : String) (limits : QosLimits) (subsysOut : EngineRes (List EngSubsys))
    (ns : EngNs) (bname : String) (tr0 : List EngCall)
    (hfind : find_namespace_and_bdev_name nqn reqNsid reqUuid subsysOut =
      ((some ns, bname), tr0))
    (hb : ¬ bname = "") :
    (∀ qent, st.findQos nqn ns.nsid = some qent →
      (namespace_set_qos_limits st ⟨nqn, reqNsid, reqUuid, limits⟩ true subsysOut
          (.ret true) true).st.findQos nqn ns.nsid =
        some ⟨nqn, ns.nsid,
          ⟨match limits.rw_ios_per_second with
           | some v => some v
           | none => qent.limits.rw_ios_per_second,
           match limits.rw_mbytes_per_second with
           | some v => some v
           | none => qent.limits.rw_mbytes_per_second,
           match limits.r_mbytes_per_second with
           | some v => some v
           | none => qent.limits.r_mbytes_per_second,
           match limits.w_mbytes_per_second with
           | some v => some v
           | none => qent.limits.w_mbytes_per_second⟩⟩) ∧
    (st.findQos nqn ns.nsid = none →
      (namespace_set_qos_limits st ⟨nqn, reqNsid, reqUuid, limits⟩ true subsysOut
          (.ret true) true).st.findQos nqn ns.nsid = some ⟨nqn, ns.nsid, limits⟩) := by
  constructor
  · intro qent hq
    have hmerge : merge_qos limits qent.limits =
        ⟨match limits.rw_ios_per_second with
         | some v => some v
         | none => qent.limits.rw_ios_per_second,
         match limits.rw_mbytes_per_second with
         | some v => some v
         | none => qent.limits.rw_mbytes_per_second,
         match limits.r_mbytes_per_second with
         | some v => some v
         | none => qent.limits.r_mbytes_per_second,
         match limits.w_mbytes_per_second with
         | some v => some v
         | none => qent.limits.w_mbytes_per_second⟩ := by
      rcases limits with ⟨a, b, c, d⟩
      cases a <;> cases b <;> cases c <;> cases d <;> rfl
    rw [← hmerge]
    rw [namespace_set_qos_limits, namespace_set_qos_limits_safe]
    simp only [hfind]
    rw [if_neg hb]
    simp [hq, execute_grpc_function]
    exact findQos_addNamespaceQos st
      (⟨nqn, ns.nsid, merge_qos limits qent.limits⟩ : QosEntry)
  · intro hq
    rw [namespace_set_qos_limits, namespace_set_qos_limits_safe]
    simp only [hfind]
    rw [if_neg hb]
    simp [hq, execute_grpc_function]
    exact findQos_addNamespaceQos st (⟨nqn, ns.nsid, limits⟩ : QosEntry)

/-- Witness for C8 at a concrete input: a stored record with only
`rw_ios_per_second = 100` merged with a request setting only
`rw_mbytes_per_second = 200` persists `(100, 200, unset, unset)`. -/
theorem C8_qos_limits_merge_witness :
    (namespace_set_qos_limits
        ⟨[], [], [⟨"nqn.test.1", 1, ⟨some 100, none, none, none⟩⟩], [], []⟩
        ⟨"nqn.test.1", 1, "", ⟨none, some 200, none, none⟩⟩ true
        (.ret [⟨"nqn.test.1", [⟨1, "u", "b"⟩]⟩]) (.ret true) true).st.findQos
      "nqn.test.1" 1 =
      some ⟨"nqn.test.1", 1, ⟨some 100, some 200, none, none⟩⟩ :=
  (C8_qos_limits_merge
    ⟨[], [], [⟨"nqn.test.1", 1, ⟨some 100, none, none, none⟩⟩], [], []⟩
    "nqn.test.1" 1 "" ⟨none, some 200, none, none⟩
    (.ret [⟨"nqn.test.1", [⟨1, "u", "b"⟩]⟩]) ⟨1, "u", "b"⟩ "b" [.getSubsystems]
    (by decide) (by decide)).1 ⟨"nqn.test.1", 1, ⟨some 100, none, none, none⟩⟩ rfl

/-! ## Claim C4 -/

/-- C4: a live-mode `create_subsystem` whose NQN already appears in the
persisted record, or whose (effective) serial number is already used by a
persisted subsystem with a different NQN, returns EEXIST under the locks
without issuing the engine create call and without touching the
persisted record.  (Subsystem NQNs are nonempty identifiers — hypothesis
`hne`; the code's truthiness test would skip a conflicting entry whose
recorded NQN were the empty string.) -/
theorem C4_duplicate_create_subsystem (st : GwState) (req : CreateSubsysReq)
    (minc maxc : Int) (randser : Nat) (engineOut : EngineOut) (persistOk : Bool)
    (h1 : is_discovery_nqn req.subsystem_nqn = false)
    (h2 : req.enable_ha = true → req.ana_reporting = true)
    (h3 : ¬ minc > maxc)
    (hne : ∀ e ∈ st.subsystems, e.subsystem_nqn ≠ "")
    (hconf : (∃ e ∈ st.subsystems, e.subsystem_nqn = req.subsystem_nqn) ∨
      (∃ e ∈ st.subsystems,
        e.serial_number =
          (if req.serial_number = "" then "SPDK" ++ decStr randser
           else req.serial_number) ∧
        e.subsystem_nqn ≠ req.subsystem_nqn)) :
    create_subsystem st req minc maxc randser true engineOut persistOk =
      ⟨.ok EEXIST, st, [.omapLockAcq, .rpcLockAcq]⟩ := by
  have hdup_of : (∃ e ∈ st.subsystems, e.subsystem_nqn = req.subsystem_nqn) →
      subsystem_already_exists true st req.subsystem_nqn = true := by
    rintro ⟨e, he, hkey⟩
    rw [subsystem_already_exists]
    simp only [Bool.not_true, Bool.false_eq_true, if_false]
    exact List.any_eq_true.mpr ⟨e, he, decide_eq_true hkey⟩
  have hsafe : create_subsystem_safe st req minc maxc randser true engineOut persistOk =
      ⟨.ok EEXIST, st, []⟩ := by
    rw [create_subsystem_safe]
    rw [if_neg (by simp [h1])]
    rw [if_neg (fun hand => absurd (h2 hand.1) hand.2)]
    rw [if_neg h3]
    cases hdup : subsystem_already_exists true st req.subsystem_nqn with
    | true => simp
    | false =>
        rcases hconf with hnqn | ⟨e, he, hserial, -⟩
        · rw [hdup_of hnqn] at hdup; exact absurd hdup (by simp)
        · have hser : serial_number_already_used true st
              (if req.serial_number = "" then "SPDK" ++ decStr randser
               else req.serial_number) = some e.subsystem_nqn ∨
              (∃ f ∈ st.subsystems, serial_number_already_used true st
                (if req.serial_number = "" then "SPDK" ++ decStr randser
                 else req.serial_number) = some f.subsystem_nqn) := by
            rw [serial_number_already_used]
            simp only [Bool.not_true, Bool.false_eq_true, if_false]
            cases hf : st.subsystems.find? (fun s => decide (s.serial_number =
                (if req.serial_number = "" then "SPDK" ++ decStr randser
                 else req.serial_number))) with
            | none =>
                exact absurd (decide_eq_true hserial) (List.find?_eq_none.mp hf e he)
            | some f =>
                exact Or.inr ⟨f, List.mem_of_find?_eq_some hf, rfl⟩
          rcases hser with hser | ⟨f, hfmem, hser⟩
          · simp [hser, hne e he]
          · simp [hser, hne f hfmem]
  rw [create_subsystem, hsafe]
  rfl

/-- Witness for C4 at a concrete input (NQN already recorded). -/
theorem C4_duplicate_create_subsystem_witness :
    create_subsystem ⟨[⟨"nqn.test.1", "SPDK1", false⟩], [], [], [], []⟩
        ⟨"nqn.test.1", "SPDK2", false, false⟩ 1 65519 7 true (.ret true) true =
      ⟨.ok EEXIST, ⟨[⟨"nqn.test.1", "SPDK1", false⟩], [], [], [], []⟩,
        [.omapLockAcq, .rpcLockAcq]⟩ :=
  C4_duplicate_create_subsystem ⟨[⟨"nqn.test.1", "SPDK1", false⟩], [], [], [], []⟩
    ⟨"nqn.test.1", "SPDK2", false, false⟩ 1 65519 7 (.ret true) true (by decide)
    (by decide) (by decide) (by decide)
    (Or.inl ⟨⟨"nqn.test.1", "SPDK1", false⟩, by decide, rfl⟩)

/-! ## Claim C6 -/

/-- C6: on a live `create_listener` for an HA-enabled subsystem (HA read
from the persisted subsystem entry since a live request carries
`AUTO_HA_UNSET`), once the engine accepted the listener the access-group
state is set to "inaccessible" for groups 1,2,3,4 in order and the
listener is persisted (first conjunct); if the per-group call for the
first failing group `g` raises, the operation returns that failure's
translated status, the already-added listener is not removed from the
engine (no `removeListener` in the trace, `addListener` still there) and
it is not recorded in the persisted record (state unchanged) — second
conjunct. -/
theorem C6_create_listener_ha (st : GwState) (nqn gw trtype traddr : String)
    (port : Nat) (se : SubsysEntry)
    (hdisc : is_discovery_nqn nqn = false)
    (hexists : matching_listener_exists true st nqn gw trtype traddr port = false)
    (hsub : st.findSubsys nqn = some se)
    (hha : se.enable_ha = true) :
    (∀ anaOuts : Nat → Option SpdkEx, (∀ g, anaOuts g = none) →
      create_listener st nqn gw gw true true true .haUnset trtype traddr port true
          (.ret true) anaOuts true =
        ⟨.ok 0, st.addListener ⟨nqn, gw, trtype, traddr, port⟩,
          [.omapLockAcq, .rpcLockAcq, .addListener, .setAnaState 1, .setAnaState 2,
            .setAnaState 3, .setAnaState 4]⟩) ∧
    (∀ (anaOuts : Nat → Option SpdkEx) (g : Nat) (ex : SpdkEx) (c : Int),
      (g = 1 ∨ g = 2 ∨ g = 3 ∨ g = 4) → anaOuts g = some ex →
      (∀ g', 1 ≤ g' → g' < g → anaOuts g' = none) → exnStatus ex = .ok c →
      ¬ c = 0 →
      (create_listener st nqn gw gw true true true .haUnset trtype traddr port true
          (.ret true) anaOuts true).out = .ok c ∧
      (create_listener st nqn gw gw true true true .haUnset trtype traddr port true
          (.ret true) anaOuts true).st = st ∧
      EngCall.addListener ∈ (create_listener st nqn gw gw true true true .haUnset
          trtype traddr port true (.ret true) anaOuts true).trace ∧
      EngCall.removeListener ∉ (create_listener st nqn gw gw true true true .haUnset
          trtype traddr port true (.ret true) anaOuts true).trace) := by
  constructor
  · intro anaOuts hnone
    rw [create_listener, create_listener_safe]
    rw [if_neg (by simp), if_neg (by simp), if_neg (by simp)]
    rw [if_neg (by simp [hdisc])]
    rw [if_pos rfl, if_neg (by simp [hexists])]
    simp only [hsub, Option.map_some, Option.getD_some, if_pos rfl]
    simp [set_ana_states, hha, hnone 1, hnone 2, hnone 3, hnone 4,
      execute_grpc_function]
  · intro anaOuts g ex c hg hfail hprev hstatus hc
    have hrun : create_listener st nqn gw gw true true true .haUnset trtype traddr
        port true (.ret true) anaOuts true =
        ⟨.ok c, st, .omapLockAcq :: .rpcLockAcq :: .addListener ::
          ((List.range (g - 1)).map (fun i => EngCall.setAnaState (i + 1)) ++
            [.setAnaState g])⟩ := by
      rw [create_listener, create_listener_safe]
      rw [if_neg (by simp), if_neg (by simp), if_neg (by simp)]
      rw [if_neg (by simp [hdisc])]
      rw [if_pos rfl, if_neg (by simp [hexists])]
      simp only [hsub, Option.map_some, Option.getD_some, if_pos rfl]
      rcases hg with rfl | rfl | rfl | rfl
      · simp [set_ana_states, hha, hfail, hstatus, execute_grpc_function,
          List.range_succ]
      · simp [set_ana_states, hha, hprev 1 (by decide) (by decide), hfail, hstatus,
          execute_grpc_function, List.range_succ]
      · simp [set_ana_states, hha, hprev 1 (by decide) (by decide),
          hprev 2 (by decide) (by decide), hfail, hstatus, execute_grpc_function,
          List.range_succ]
      · simp [set_ana_states, hha, hprev 1 (by decide) (by decide),
          hprev 2 (by decide) (by decide), hprev 3 (by decide) (by decide), hfail,
          hstatus, execute_grpc_function, List.range_succ]
    rw [hrun]
    exact ⟨rfl, rfl, by simp, by simp⟩

/-- Witness for C6 at a concrete input: all four group calls succeed
(first conjunct); the call for group 2 raises a structured error with
code -5, normalized to 5 (second conjunct). -/
theorem C6_create_listener_ha_witness :
    (create_listener ⟨[⟨"nqn.test.1", "SPDK1", true⟩], [], [], [], []⟩ "nqn.test.1"
        "gw1" "gw1" true true true .haUnset "TCP" "addr" 4420 true (.ret true)
        (fun _ => none) true =
      ⟨.ok 0, (⟨[⟨"nqn.test.1", "SPDK1", true⟩], [], [], [], []⟩ :
          GwState).addListener ⟨"nqn.test.1", "gw1", "TCP", "addr", 4420⟩,
        [.omapLockAcq, .rpcLockAcq, .addListener, .setAnaState 1, .setAnaState 2,
          .setAnaState 3, .setAnaState 4]⟩) ∧
    ((create_listener ⟨[⟨"nqn.test.1", "SPDK1", true⟩], [], [], [], []⟩ "nqn.test.1"
        "gw1" "gw1" true true true .haUnset "TCP" "addr" 4420 true (.ret true)
        (fun g => if g = 2 then some ⟨true, some (.obj (-5) "e")⟩ else none)
        true).out = .ok 5 ∧
      (create_listener ⟨[⟨"nqn.test.1", "SPDK1", true⟩], [], [], [], []⟩ "nqn.test.1"
        "gw1" "gw1" true true true .haUnset "TCP" "addr" 4420 true (.ret true)
        (fun g => if g = 2 then some ⟨true, some (.obj (-5) "e")⟩ else none)
        true).st = ⟨[⟨"nqn.test.1", "SPDK1", true⟩], [], [], [], []⟩) := by
  have h := C6_create_listener_ha ⟨[⟨"nqn.test.1", "SPDK1", true⟩], [], [], [], []⟩
    "nqn.test.1" "gw1" "TCP" "addr" 4420 ⟨"nqn.test.1", "SPDK1", true⟩ (by decide)
    (by decide) rfl rfl
  have hB := h.2 (fun g => if g = 2 then some ⟨true, some (.obj (-5) "e")⟩ else none)
    2 ⟨true, some (.obj (-5) "e")⟩ 5 (Or.inr (Or.inl rfl)) rfl
    (fun g' h1 h2 => by
      have hg : g' = 1 := by omega
      subst hg
      rfl)
    rfl (by decide)
  exact ⟨h.1 (fun _ => none) (fun g => rfl), hB.1, hB.2.1⟩

/-! ## Claim C1 -/

theorem findHost_removeHost (st : GwState) (nqn hostnqn : String) :
    (st.removeHost nqn hostnqn).hosts.find?
      (fun h => h.subsystem_nqn = nqn ∧ h.host_nqn = hostnqn) = none := by
  rw [GwState.removeHost]
  rw [List.find?_eq_none]
  intro x hx
  rcases List.mem_filter.mp hx with ⟨-, hnx⟩
  simpa using of_decide_eq_true hnx

theorem findListener_removeListener (st : GwState) (nqn gw trtype traddr : String)
    (port : Nat) :
    (st.removeListener nqn gw trtype traddr port).listeners.find?
      (fun l => l.sameKey nqn gw trtype traddr port) = none := by
  rw [GwState.removeListener]
  rw [List.find?_eq_none]
  intro x hx
  rcases List.mem_filter.mp hx with ⟨-, hnx⟩
  simpa using of_decide_eq_true hnx

/-- C1 counterexample: a live `namespace_delete` of an existing, persisted
namespace whose engine-side `nvmf_subsystem_remove_ns` fails (falsy
result) returns EINVAL with the persisted namespace entry still in the
record — contradicting the claim that every delete-style operation cleans
the persisted entry even when the engine-side delete failed. -/
theorem C1_counterexample :
    (namespace_delete ⟨[], [⟨1, "nqn.test.1", 1, 1, "p", "i", 512, "u"⟩], [], [], []⟩
        "nqn.test.1" 1 "" true (.ret [⟨"nqn.test.1", [⟨1, "u", "bdev_u"⟩]⟩])
        (.ret false) (.ret true) true).out = .ok EINVAL ∧
    (namespace_delete ⟨[], [⟨1, "nqn.test.1", 1, 1, "p", "i", 512, "u"⟩], [], [], []⟩
        "nqn.test.1" 1 "" true (.ret [⟨"nqn.test.1", [⟨1, "u", "bdev_u"⟩]⟩])
        (.ret false) (.ret true) true).st.findNs "nqn.test.1" 1 =
      some ⟨1, "nqn.test.1", 1, 1, "p", "i", 512, "u"⟩ := by
  constructor <;> rfl

/-- C1 (amended): in live mode, the persisted entry is removed regardless
of the engine-call outcome for delete-subsystem (conjunct 1), remove-host
(conjunct 2) and delete-listener (conjunct 3) — the cleanup runs even
when the engine delete raised or returned a falsy result; but for
namespace-delete a failed engine-side removal returns early with the
whole record untouched (conjunct 4), and the persisted namespace entry is
removed only when the engine-side removal succeeds (conjunct 5). -/
theorem C1_delete_record_cleanup_amended :
    (∀ (st : GwState) (nqn : String) (engineOut : EngineOut),
      (delete_subsystem_safe st nqn true engineOut true).st.findSubsys nqn = none) ∧
    (∀ (st : GwState) (nqn hostnqn : String) (engineOut : EngineOut),
      is_discovery_nqn nqn = false → is_discovery_nqn hostnqn = false →
      (remove_host_safe st nqn hostnqn true engineOut true).st.hosts.find?
        (fun h => h.subsystem_nqn = nqn ∧ h.host_nqn = hostnqn) = none) ∧
    (∀ (st : GwState) (nqn gw trtype traddr : String) (port : Nat)
        (engineOut : EngineOut), is_discovery_nqn nqn = false →
      (delete_listener_safe st nqn gw gw true true trtype traddr port true
          engineOut true).st.listeners.find?
        (fun l => l.sameKey nqn gw trtype traddr port) = none) ∧
    (∀ (st : GwState) (nqn : String) (reqNsid : Int) (reqUuid : String)
        (subsysOut : EngineRes (List EngSubsys)) (delBdevOut : EngineOut)
        (persistOk : Bool),
      (namespace_delete_safe st nqn reqNsid reqUuid true subsysOut (.ret false)
        delBdevOut persistOk).st = st) ∧
    (∀ (st : GwState) (nqn : String) (reqNsid : Int) (reqUuid : String)
        (subsysOut : EngineRes (List EngSubsys)) (ns : EngNs) (tr0 : List EngCall),
      find_namespace_and_bdev_name nqn reqNsid reqUuid subsysOut =
        ((some ns, ""), tr0) →
      is_discovery_nqn nqn = false →
      (namespace_delete_safe st nqn reqNsid reqUuid true subsysOut (.ret true)
        (.ret true) true).st.findNs nqn ns.nsid = none) := by
  have hhost : ∀ (st : GwState) (nqn hostnqn : String),
      ∀ x ∈ (st.removeHost nqn hostnqn).hosts,
        x.subsystem_nqn = nqn → ¬ x.host_nqn = hostnqn := by
    intro st nqn hostnqn x hx h1 h2
    rw [GwState.removeHost] at hx
    rcases List.mem_filter.mp hx with ⟨-, hnx⟩
    exact (of_decide_eq_true hnx) ⟨h1, h2⟩
  have hlsn : ∀ (st : GwState) (nqn gw trtype traddr : String) (port : Nat),
      ∀ x ∈ (st.removeListener nqn gw trtype traddr port).listeners,
        ¬ x.sameKey nqn gw trtype traddr port = true := by
    intro st nqn gw trtype traddr port x hx
    rw [GwState.removeListener] at hx
    rcases List.mem_filter.mp hx with ⟨-, hnx⟩
    simpa using hnx
  refine ⟨?_, ?_, ?_, ?_, ?_⟩
  · intro st nqn engineOut
    rw [delete_subsystem_safe.eq_def]
    cases engineOut with
    | exn ex => simp [remove_subsystem_from_state, findSubsys_removeSubsystem]
    | ret t =>
        cases t <;> simp [remove_subsystem_from_state, findSubsys_removeSubsystem]
  · intro st nqn hostnqn engineOut h1 h2
    rw [remove_host_safe]
    rw [if_neg (by simp [h1]), if_neg (by simp [h2])]
    cases engineOut with
    | exn ex => simp [remove_host_from_state]; exact hhost st nqn hostnqn
    | ret t =>
        cases t <;>
          first
          | (simp [remove_host_from_state]; exact hhost st nqn hostnqn)
          | simp [remove_host_from_state]
  · intro st nqn gw trtype traddr port engineOut h1
    rw [delete_listener_safe.eq_def]
    rw [if_neg (by simp), if_neg (by simp), if_neg (by simp [h1]), if_pos rfl]
    cases engineOut with
    | exn ex =>
        simp [remove_listener_from_state]
        exact fun x hx => by simpa using hlsn st nqn gw trtype traddr port x hx
    | ret t =>
        cases t <;>
          first
          | (simp [remove_listener_from_state]
             exact fun x hx => by simpa using hlsn st nqn gw trtype traddr port x hx)
          | simp [remove_listener_from_state]
  · intro st nqn reqNsid reqUuid subsysOut delBdevOut persistOk
    rcases hF : find_namespace_and_bdev_name nqn reqNsid reqUuid subsysOut with
      ⟨⟨found, bname⟩, tr0⟩
    rw [namespace_delete_safe, hF]
    dsimp only
    cases found with
    | none => rfl
    | some ns =>
        dsimp only
        rw [remove_namespace.eq_def]
        by_cases hd : is_discovery_nqn nqn = true
        · rw [if_pos hd]; simp [EINVAL]
        · rw [if_neg hd]; simp [EINVAL]
  · intro st nqn reqNsid reqUuid subsysOut ns tr0 hF h1
    rw [namespace_delete_safe, hF]
    dsimp only
    rw [remove_namespace.eq_def]
    rw [if_neg (by simp [h1])]
    simp [remove_namespace_from_state, GwState.removeNamespaceQos,
      GwState.removeNamespace, GwState.findNs]
    intro x hx h hA
    rcases h with h | h
    · exact absurd hA h
    · exact h

/-- Witness for the amended C1 at concrete inputs: each of the five parts
evaluated on a one-entry record with a failing (or, for conjunct 5,
succeeding) engine delete. -/
theorem C1_delete_record_cleanup_amended_witness :
    (delete_subsystem_safe ⟨[⟨"nqn.test.1", "SPDK1", false⟩], [], [], [], []⟩
      "nqn.test.1" true (.ret false) true).st.findSubsys "nqn.test.1" = none ∧
    (remove_host_safe ⟨[], [], [], [⟨"nqn.test.1", "hostnqn1"⟩], []⟩ "nqn.test.1"
      "hostnqn1" true (.ret false) true).st.hosts.find?
        (fun h => h.subsystem_nqn = "nqn.test.1" ∧ h.host_nqn = "hostnqn1") = none ∧
    (delete_listener_safe ⟨[], [], [], [], [⟨"nqn.test.1", "gw1", "TCP", "a", 4420⟩]⟩
      "nqn.test.1" "gw1" "gw1" true true "TCP" "a" 4420 true (.ret false)
      true).st.listeners.find?
        (fun l => l.sameKey "nqn.test.1" "gw1" "TCP" "a" 4420) = none ∧
    (namespace_delete_safe ⟨[], [⟨1, "nqn.test.1", 1, 1, "p", "i", 512, "u"⟩], [], [], []⟩
      "nqn.test.1" 1 "" true (.ret [⟨"nqn.test.1", [⟨1, "u", "bdev_u"⟩]⟩]) (.ret false)
      (.ret true) true).st =
        ⟨[], [⟨1, "nqn.test.1", 1, 1, "p", "i", 512, "u"⟩], [], [], []⟩ ∧
    (namespace_delete_safe ⟨[], [⟨1, "nqn.test.1", 1, 1, "p", "i", 512, "u"⟩], [], [], []⟩
      "nqn.test.1" 1 "" true (.ret [⟨"nqn.test.1", [⟨1, "u", ""⟩]⟩]) (.ret true)
      (.ret true) true).st.findNs "nqn.test.1" 1 = none :=
  ⟨C1_delete_record_cleanup_amended.1 ⟨[⟨"nqn.test.1", "SPDK1", false⟩], [], [], [], []⟩
      "nqn.test.1" (.ret false),
   C1_delete_record_cleanup_amended.2.1 ⟨[], [], [], [⟨"nqn.test.1", "hostnqn1"⟩], []⟩
      "nqn.test.1" "hostnqn1" (.ret false) (by decide) (by decide),
   C1_delete_record_cleanup_amended.2.2.1
      ⟨[], [], [], [], [⟨"nqn.test.1", "gw1", "TCP", "a", 4420⟩]⟩ "nqn.test.1" "gw1"
      "TCP" "a" 4420 (.ret false) (by decide),
   C1_delete_record_cleanup_amended.2.2.2.1
      ⟨[], [⟨1, "nqn.test.1", 1, 1, "p", "i", 512, "u"⟩], [], [], []⟩ "nqn.test.1" 1 ""
      (.ret [⟨"nqn.test.1", [⟨1, "u", "bdev_u"⟩]⟩]) (.ret true) true,
   C1_delete_record_cleanup_amended.2.2.2.2
      ⟨[], [⟨1, "nqn.test.1", 1, 1, "p", "i", 512, "u"⟩], [], [], []⟩ "nqn.test.1" 1 ""
      (.ret [⟨"nqn.test.1", [⟨1, "u", ""⟩]⟩]) ⟨1, "u", ""⟩ [.getSubsystems] (by decide)
      (by decide)⟩

/-! ## Claim C3 -/

/-- C3 counterexample: a live `namespace_change_load_balancing_group`
request with group id 5 (outside [1,4]) on an existing namespace is NOT
rejected before any lock: the run acquires the locks, issues the
engine-side detach (`removeNs`), and removes the persisted namespace
entry before `create_namespace` rejects the group id with EINVAL —
contradicting "rejected before any lock is acquired, and neither the
engine state nor the persisted record is changed". -/
theorem C3_counterexample :
    (namespace_change_load_balancing_group
        ⟨[], [⟨1, "nqn.test.1", 1, 1, "p", "i", 512, "u"⟩], [], [], []⟩ "nqn.test.1" 1 ""
        5 true (.ret [⟨"nqn.test.1", [⟨1, "u", "bdev_u"⟩]⟩]) (.ret true) (.ret 1) true
        true).out = .ok EINVAL ∧
    (namespace_change_load_balancing_group
        ⟨[], [⟨1, "nqn.test.1", 1, 1, "p", "i", 512, "u"⟩], [], [], []⟩ "nqn.test.1" 1 ""
        5 true (.ret [⟨"nqn.test.1", [⟨1, "u", "bdev_u"⟩]⟩]) (.ret true) (.ret 1) true
        true).st.findNs "nqn.test.1" 1 = none ∧
    EngCall.removeNs ∈ (namespace_change_load_balancing_group
        ⟨[], [⟨1, "nqn.test.1", 1, 1, "p", "i", 512, "u"⟩], [], [], []⟩ "nqn.test.1" 1 ""
        5 true (.ret [⟨"nqn.test.1", [⟨1, "u", "bdev_u"⟩]⟩]) (.ret true) (.ret 1) true
        true).trace ∧
    EngCall.omapLockAcq ∈ (namespace_change_load_balancing_group
        ⟨[], [⟨1, "nqn.test.1", 1, 1, "p", "i", 512, "u"⟩], [], [], []⟩ "nqn.test.1" 1 ""
        5 true (.ret [⟨"nqn.test.1", [⟨1, "u", "bdev_u"⟩]⟩]) (.ret true) (.ret 1) true
        true).trace := by
  refine ⟨rfl, rfl, ?_, ?_⟩ <;> decide

/-- C3 (amended): a `namespace_change_load_balancing_group` request with
group id above 4 is rejected with EINVAL, but only by the `anagrpid`
check inside `create_namespace`, which runs under both locks after the
existing namespace has already been detached from the engine and removed
from the persisted record; the detached namespace is not restored (first
conjunct: status, record entry gone, full trace with locks first and no
re-attach `addNs`).  Group ids below 1 are not validated at all: with
group id 0 the same run re-attaches the namespace under group 0 and
returns success (second conjunct). -/
theorem C3_change_lbgroup_amended (st : GwState) (nqn : String) (nsid : Nat)
    (uuid bdev : String) (e : NsEntry) (anagrpid : Nat)
    (hdisc : is_discovery_nqn nqn = false)
    (hns : st.findNs nqn nsid = some e)
    (hnsid : ¬ nsid = 0)
    (hbdev : ¬ bdev = "")
    (hgrp : anagrpid > 4) :
    (namespace_change_load_balancing_group st nqn (nsid : Int) "" anagrpid true
        (.ret [⟨nqn, [⟨nsid, uuid, bdev⟩]⟩]) (.ret true) (.ret nsid) true true =
      ⟨.ok EINVAL,
        ((st.removeNamespaceQos nqn nsid).removeNamespace nqn nsid),
        [.omapLockAcq, .rpcLockAcq, .getSubsystems, .removeNs]⟩) ∧
    (namespace_change_load_balancing_group st nqn (nsid : Int) "" 0 true
        (.ret [⟨nqn, [⟨nsid, uuid, bdev⟩]⟩]) (.ret true) (.ret nsid) true true =
      ⟨.ok 0,
        (((st.removeNamespaceQos nqn nsid).removeNamespace nqn nsid).addNamespace
          ⟨nsid, nqn, e.nsid, 0, e.rbd_pool_name, e.rbd_image_name, e.block_size,
            e.uuid⟩),
        [.omapLockAcq, .rpcLockAcq, .getSubsystems, .removeNs, .addNs]⟩) := by
  have hfind : find_namespace_and_bdev_name nqn (nsid : Int) ""
      (.ret [⟨nqn, [⟨nsid, uuid, bdev⟩]⟩]) =
      ((some ⟨nsid, uuid, bdev⟩, bdev), [.getSubsystems]) := by
    rw [find_namespace_and_bdev_name.eq_def]
    rw [if_neg (by simp; omega)]
    simp [findInSubsysList]
  have hcn : create_namespace nqn bdev (nsid : Int) anagrpid uuid true (.ret nsid) =
      (.ok (EINVAL, 0), []) := by
    rw [create_namespace.eq_def]
    rw [if_pos (show anagrpid > MAX_ANA_GROUPS from hgrp)]
  have hcn0 : create_namespace nqn bdev (nsid : Int) 0 uuid true (.ret nsid) =
      (.ok (0, nsid), [.addNs]) := by
    rw [create_namespace.eq_def]
    rw [if_neg (by simp [MAX_ANA_GROUPS])]
    rw [if_neg (by simp [hdisc])]
    simp [hnsid]
  constructor
  · rw [namespace_change_load_balancing_group,
      namespace_change_load_balancing_group_safe, hfind]
    dsimp only
    rw [if_neg (by simp)]
    rw [if_neg (by simp)]
    rw [hns]
    rw [remove_namespace.eq_def, if_neg (by simp [hdisc])]
    dsimp only
    rw [if_neg hbdev]
    rw [hcn]
    simp [remove_namespace_from_state, hnsid, EINVAL, execute_grpc_function]
  · rw [namespace_change_load_balancing_group,
      namespace_change_load_balancing_group_safe, hfind]
    dsimp only
    rw [if_neg (by simp)]
    rw [if_neg (by simp)]
    rw [hns]
    rw [remove_namespace.eq_def, if_neg (by simp [hdisc])]
    dsimp only
    rw [if_neg hbdev]
    rw [hcn0]
    simp [remove_namespace_from_state, hnsid, EINVAL, execute_grpc_function]

/-- Witness for the amended C3 at a concrete input. -/
theorem C3_change_lbgroup_amended_witness :
    (namespace_change_load_balancing_group
        ⟨[], [⟨1, "nqn.test.1", 1, 1, "p", "i", 512, "u"⟩], [], [], []⟩ "nqn.test.1"
        ((1 : Nat) : Int) "" 5 true (.ret [⟨"nqn.test.1", [⟨1, "u", "bdev_u"⟩]⟩])
        (.ret true) (.ret 1) true true =
      ⟨.ok EINVAL,
        (((⟨[], [⟨1, "nqn.test.1", 1, 1, "p", "i", 512, "u"⟩], [], [], []⟩ :
            GwState).removeNamespaceQos "nqn.test.1" 1).removeNamespace "nqn.test.1" 1),
        [.omapLockAcq, .rpcLockAcq, .getSubsystems, .removeNs]⟩) ∧
    (namespace_change_load_balancing_group
        ⟨[], [⟨1, "nqn.test.1", 1, 1, "p", "i", 512, "u"⟩], [], [], []⟩ "nqn.test.1"
        ((1 : Nat) : Int) "" 0 true (.ret [⟨"nqn.test.1", [⟨1, "u", "bdev_u"⟩]⟩])
        (.ret true) (.ret 1) true true =
      ⟨.ok 0,
        ((((⟨[], [⟨1, "nqn.test.1", 1, 1, "p", "i", 512, "u"⟩], [], [], []⟩ :
            GwState).removeNamespaceQos "nqn.test.1" 1).removeNamespace "nqn.test.1"
            1).addNamespace ⟨1, "nqn.test.1", 1, 0, "p", "i", 512, "u"⟩),
        [.omapLockAcq, .rpcLockAcq, .getSubsystems, .removeNs, .addNs]⟩) := by
  exact C3_change_lbgroup_amended
    ⟨[], [⟨1, "nqn.test.1", 1, 1, "p", "i", 512, "u"⟩], [], [], []⟩ "nqn.test.1" 1 "u"
    "bdev_u" ⟨1, "nqn.test.1", 1, 1, "p", "i", 512, "u"⟩ 5 (by decide) rfl (by decide)
    (by decide) (by decide)

/-! ## Claim C5 -/

theorem namespace_delete_coop (st : GwState) (nqn : String) (i : Int) (u : String)
    (hdisc : is_discovery_nqn nqn = false) (hi : 0 < i) :
    namespace_delete st nqn i "" true (.ret [⟨nqn, [⟨i.toNat, u, ""⟩]⟩]) (.ret true)
      (.ret true) true =
      ⟨.ok 0, (st.removeNamespaceQos nqn i.toNat).removeNamespace nqn i.toNat,
        [.omapLockAcq, .rpcLockAcq, .getSubsystems, .removeNs]⟩ := by
  have hcast : ((i.toNat : Nat) : Int) = i := Int.toNat_of_nonneg hi.le
  have hfind : find_namespace_and_bdev_name nqn i "" (.ret [⟨nqn, [⟨i.toNat, u, ""⟩]⟩]) =
      ((some ⟨i.toNat, u, ""⟩, ""), [.getSubsystems]) := by
    rw [find_namespace_and_bdev_name.eq_def]
    rw [if_neg (fun h => not_le.mpr hi h.1)]
    simp [findInSubsysList, hcast]
  rw [namespace_delete, namespace_delete_safe, hfind]
  dsimp only
  rw [remove_namespace.eq_def, if_neg (by simp [hdisc])]
  dsimp only
  simp [remove_namespace_from_state, EINVAL, execute_grpc_function]

theorem coop_loop (nqn : String) (perNs : Int → NsDelOuts) (us : Int → String)
    (hcoop : ∀ i, perNs i =
      ⟨.ret [⟨nqn, [⟨i.toNat, us i, ""⟩]⟩], .ret true, .ret true, true⟩)
    (hdisc : is_discovery_nqn nqn = false) :
    ∀ (L : List Int), (∀ i ∈ L, 0 < i) → ∀ (st : GwState) (tr : List EngCall),
      force_delete_namespaces nqn true perNs L st tr =
        (.ok (), applyDeletes nqn L st,
          tr ++ L.flatMap
            (fun _ => [.omapLockAcq, .rpcLockAcq, .getSubsystems, .removeNs])) := by
  intro L
  induction L with
  | nil => intro h st tr; simp [force_delete_namespaces, applyDeletes]
  | cons i L ih =>
      intro h st tr
      rw [force_delete_namespaces]
      rw [hcoop i]
      dsimp only
      rw [namespace_delete_coop st nqn i (us i) hdisc (h i (by simp))]
      dsimp only
      rw [ih (fun j hj => h j (by simp [hj])) _ _]
      simp [applyDeletes]

theorem applyDeletes_subsystems (nqn : String) (L : List Int) (st : GwState) :
    (applyDeletes nqn L st).subsystems = st.subsystems := by
  induction L generalizing st with
  | nil => rfl
  | cons i L ih =>
      show (applyDeletes nqn L
        ((st.removeNamespaceQos nqn i.toNat).removeNamespace nqn i.toNat)).subsystems =
        st.subsystems
      rw [ih]
      rfl

theorem applyDeletes_namespaces_sub (nqn : String) (L : List Int) (st : GwState) :
    ∀ e ∈ (applyDeletes nqn L st).namespaces,
      e ∈ st.namespaces ∧ ∀ i ∈ L, ¬(e.subsystem_nqn = nqn ∧ e.keyNsid = i.toNat) := by
  induction L generalizing st with
  | nil => intro e he; exact ⟨he, by simp⟩
  | cons i L ih =>
      intro e he
      have h1 := ih ((st.removeNamespaceQos nqn i.toNat).removeNamespace nqn i.toNat) e he
      have h2 : e ∈ st.namespaces ∧ ¬(e.subsystem_nqn = nqn ∧ e.keyNsid = i.toNat) := by
        have hmem := h1.1
        simp only [GwState.removeNamespace, GwState.removeNamespaceQos] at hmem
        rcases List.mem_filter.mp hmem with ⟨hm, hp⟩
        exact ⟨hm, of_decide_eq_true hp⟩
      refine ⟨h2.1, ?_⟩
      intro j hj
      rcases List.mem_cons.mp hj with rfl | hj
      · exact h2.2
      · exact h1.2 j hj

theorem force_loop_no_crash (nqn : String) (ctx : Bool) (perNs : Int → NsDelOuts) :
    ∀ L : List Int,
      (∀ i ∈ L, ∀ s : GwState, ∃ c : Int,
        (namespace_delete s nqn i "" ctx (perNs i).subsysOut (perNs i).removeOut
          (perNs i).delBdevOut (perNs i).persistOk).out = .ok c) →
      ∀ (st : GwState) (tr : List EngCall), ∃ st' tr',
        force_delete_namespaces nqn ctx perNs L st tr = (.ok (), st', tr') := by
  intro L
  induction L with
  | nil => intro h st tr; exact ⟨st, tr, rfl⟩
  | cons i L ih =>
      intro h st tr
      obtain ⟨c, hc⟩ := h i (by simp) st
      rw [force_delete_namespaces]
      rw [hc]
      exact ih (fun j hj s => h j (by simp [hj]) s) _ _

theorem delete_subsystem_safe_out (s : GwState) (nqn : String) (ctx : Bool)
    (eo : EngineOut) (po : Bool) :
    (delete_subsystem_safe s nqn ctx eo po).out =
      (match eo with
       | .exn ex => exnStatus ex
       | .ret t =>
          if !t then .ok EINVAL
          else .ok (if ctx then (if po then 0 else EINVAL) else 0)) := by
  cases eo with
  | exn ex =>
      rcases h : remove_subsystem_from_state s nqn ctx po with ⟨c, s'⟩
      simp [delete_subsystem_safe, h]
  | ret t =>
      rcases h : remove_subsystem_from_state s nqn ctx po with ⟨c, s'⟩
      have hc : c = if ctx then (if po then 0 else EINVAL) else 0 := by
        have h1 : (remove_subsystem_from_state s nqn ctx po).1 = c := by rw [h]
        rw [← h1]
        cases ctx <;> cases po <;> simp [remove_subsystem_from_state]
      cases t <;> simp [delete_subsystem_safe, h, hc]

/-- C5: live-mode `delete_subsystem` on a subsystem with persisted
namespaces.  (a) Without `force`, returns EBUSY before any lock or
engine call, record unchanged.  (b) With `force` and a cooperating engine
(each listed namespace resolvable and every engine delete succeeding),
every namespace is deleted individually first, then the subsystem: status
0, no namespace of the subsystem and no subsystem entry left in the
record, and the trace is the per-namespace delete traces followed by the
subsystem deletion.  (c) With `force`, per-namespace failures (any
outcomes whose individual deletes return a status rather than crash) do
not stop the process: the final status is exactly that of the subsystem
deletion itself. -/
theorem C5_delete_subsystem_force (st : GwState) (nqn : String)
    (hdisc : is_discovery_nqn nqn = false) :
    (∀ (perNs : Int → NsDelOuts) (engineOut : EngineOut) (persistOk : Bool),
      get_subsystem_namespaces st nqn ≠ [] →
      delete_subsystem_run st nqn false true perNs engineOut persistOk =
        ⟨.ok EBUSY, st, []⟩) ∧
    (∀ (perNs : Int → NsDelOuts) (us : Int → String),
      (∀ i, perNs i =
        ⟨.ret [⟨nqn, [⟨i.toNat, us i, ""⟩]⟩], .ret true, .ret true, true⟩) →
      (∀ e ∈ st.namespaces, e.subsystem_nqn = nqn →
        0 < e.nsid ∧ e.keyNsid = e.nsid.toNat) →
      (delete_subsystem_run st nqn true true perNs (.ret true) true).out = .ok 0 ∧
      (∀ e ∈ (delete_subsystem_run st nqn true true perNs (.ret true) true).st.namespaces,
        ¬ e.subsystem_nqn = nqn) ∧
      (delete_subsystem_run st nqn true true perNs (.ret true) true).st.findSubsys nqn =
        none ∧
      (delete_subsystem_run st nqn true true perNs (.ret true) true).trace =
        (get_subsystem_namespaces st nqn).flatMap
          (fun _ => [.omapLockAcq, .rpcLockAcq, .getSubsystems, .removeNs]) ++
          [.omapLockAcq, .rpcLockAcq, .deleteSubsys]) ∧
    (∀ (perNs : Int → NsDelOuts) (engineOut : EngineOut) (persistOk : Bool),
      (∀ i ∈ get_subsystem_namespaces st nqn, ∀ s : GwState, ∃ c : Int,
        (namespace_delete s nqn i "" true (perNs i).subsysOut (perNs i).removeOut
          (perNs i).delBdevOut (perNs i).persistOk).out = .ok c) →
      (delete_subsystem_run st nqn true true perNs engineOut persistOk).out =
        (delete_subsystem_safe st nqn true engineOut persistOk).out) := by
  refine ⟨?_, ?_, ?_⟩
  · intro perNs engineOut persistOk hne
    rw [delete_subsystem_run]
    rw [if_neg (by simp [hdisc])]
    rw [if_pos ⟨by simp, by simpa using hne⟩]
  · intro perNs us hcoop hwf
    have hpos : ∀ i ∈ get_subsystem_namespaces st nqn, 0 < i := by
      intro i hi
      rw [get_subsystem_namespaces] at hi
      rcases List.mem_map.mp hi with ⟨e, he, rfl⟩
      rcases List.mem_filter.mp he with ⟨hm, hp⟩
      exact (hwf e hm (of_decide_eq_true hp)).1
    have hrun : delete_subsystem_run st nqn true true perNs (.ret true) true =
        ⟨.ok 0, (applyDeletes nqn (get_subsystem_namespaces st nqn) st).removeSubsystem
            nqn,
          (get_subsystem_namespaces st nqn).flatMap
            (fun _ => [.omapLockAcq, .rpcLockAcq, .getSubsystems, .removeNs]) ++
            [.omapLockAcq, .rpcLockAcq, .deleteSubsys]⟩ := by
      rw [delete_subsystem_run]
      rw [if_neg (by simp [hdisc])]
      rw [if_neg (by simp)]
      have hloop := coop_loop nqn perNs us hcoop hdisc
        (if true = true then get_subsystem_namespaces st nqn else []) (by simpa using hpos)
        st []
      rw [hloop]
      dsimp only
      simp [delete_subsystem_safe, remove_subsystem_from_state, execute_grpc_function]
    refine ⟨by rw [hrun], ?_, ?_, by rw [hrun]⟩
    · intro e he hnqn
      rw [hrun] at he
      have he' : e ∈ (applyDeletes nqn (get_subsystem_namespaces st nqn) st).namespaces := by
        simpa [GwState.removeSubsystem] using he
      obtain ⟨hmem, hall⟩ :=
        applyDeletes_namespaces_sub nqn (get_subsystem_namespaces st nqn) st e he'
      have hwfe := hwf e hmem hnqn
      have hin : e.nsid ∈ get_subsystem_namespaces st nqn := by
        rw [get_subsystem_namespaces]
        exact List.mem_map.mpr ⟨e, List.mem_filter.mpr ⟨hmem, decide_eq_true hnqn⟩, rfl⟩
      exact hall e.nsid hin ⟨hnqn, hwfe.2⟩
    · rw [hrun]
      exact findSubsys_removeSubsystem _ nqn
  · intro perNs engineOut persistOk h
    rw [delete_subsystem_run]
    rw [if_neg (by simp [hdisc])]
    rw [if_neg (by simp)]
    obtain ⟨st', tr', heq⟩ := force_loop_no_crash nqn true perNs
      (if true = true then get_subsystem_namespaces st nqn else [])
      (by simpa using h) st []
    rw [heq]
    dsimp only
    have hout : (execute_grpc_function (delete_subsystem_safe st' nqn true engineOut
        persistOk)).out = (delete_subsystem_safe st' nqn true engineOut persistOk).out :=
      rfl
    rw [hout, delete_subsystem_safe_out, delete_subsystem_safe_out]

/-- Witness for C5 at a concrete input: a record with one subsystem and
one attached namespace.  Without force: EBUSY, nothing changed.  With
force and a cooperating engine: success.  With force and a failing
per-namespace delete (engine does not list the namespace): the final
status is still that of the subsystem deletion. -/
theorem C5_delete_subsystem_force_witness :
    delete_subsystem_run
      ⟨[⟨"nqn.test.1", "SPDK1", false⟩], [⟨1, "nqn.test.1", 1, 1, "p", "i", 512, "u"⟩],
        [], [], []⟩ "nqn.test.1" false true
      (fun _ => ⟨.ret [], .ret true, .ret true, true⟩) (.ret true) true =
      ⟨.ok EBUSY,
        ⟨[⟨"nqn.test.1", "SPDK1", false⟩], [⟨1, "nqn.test.1", 1, 1, "p", "i", 512, "u"⟩],
          [], [], []⟩, []⟩ ∧
    (delete_subsystem_run
      ⟨[⟨"nqn.test.1", "SPDK1", false⟩], [⟨1, "nqn.test.1", 1, 1, "p", "i", 512, "u"⟩],
        [], [], []⟩ "nqn.test.1" true true
      (fun i => ⟨.ret [⟨"nqn.test.1", [⟨i.toNat, "u", ""⟩]⟩], .ret true, .ret true, true⟩)
      (.ret true) true).out = .ok 0 ∧
    (delete_subsystem_run
      ⟨[⟨"nqn.test.1", "SPDK1", false⟩], [⟨1, "nqn.test.1", 1, 1, "p", "i", 512, "u"⟩],
        [], [], []⟩ "nqn.test.1" true true
      (fun _ => ⟨.ret [], .ret true, .ret true, true⟩) (.ret true) true).out =
      (delete_subsystem_safe
        ⟨[⟨"nqn.test.1", "SPDK1", false⟩], [⟨1, "nqn.test.1", 1, 1, "p", "i", 512, "u"⟩],
          [], [], []⟩ "nqn.test.1" true (.ret true) true).out :=
  ⟨(C5_delete_subsystem_force
      ⟨[⟨"nqn.test.1", "SPDK1", false⟩], [⟨1, "nqn.test.1", 1, 1, "p", "i", 512, "u"⟩],
        [], [], []⟩ "nqn.test.1" (by decide)).1
      (fun _ => ⟨.ret [], .ret true, .ret true, true⟩) (.ret true) true (by decide),
   ((C5_delete_subsystem_force
      ⟨[⟨"nqn.test.1", "SPDK1", false⟩], [⟨1, "nqn.test.1", 1, 1, "p", "i", 512, "u"⟩],
        [], [], []⟩ "nqn.test.1" (by decide)).2.1
      (fun i => ⟨.ret [⟨"nqn.test.1", [⟨i.toNat, "u", ""⟩]⟩], .ret true, .ret true, true⟩)
      (fun _ => "u") (fun i => rfl) (by decide)).1,
   (C5_delete_subsystem_force
      ⟨[⟨"nqn.test.1", "SPDK1", false⟩], [⟨1, "nqn.test.1", 1, 1, "p", "i", 512, "u"⟩],
        [], [], []⟩ "nqn.test.1" (by decide)).2.2
      (fun _ => ⟨.ret [], .ret true, .ret true, true⟩) (.ret true) true
      (fun i hi s => by
        have h1 : i = 1 := by simpa [get_subsystem_namespaces] using hi
        subst h1
        exact ⟨ENODEV, rfl⟩)⟩

/-! ## Claim C9 -/

theorem decDigits_eq_digits : ∀ fuel n : Nat, n ≤ fuel → decDigits fuel n = Nat.digits 10 n := by
  intro fuel
  induction fuel with
  | zero =>
      intro n hn
      obtain rfl : n = 0 := Nat.le_zero.mp hn
      simp [decDigits]
  | succ f ih =>
      intro n hn
      cases n with
      | zero => simp [decDigits]
      | succ n =>
          rw [decDigits]
          have hdiv : (n + 1) / 10 ≤ f := by
            have h1 : (n + 1) / 10 < n + 1 := Nat.div_lt_self (Nat.succ_pos n) (by norm_num)
            omega
          rw [ih ((n + 1) / 10) hdiv]
          rw [Nat.digits_def' (by norm_num : (1:Nat) < 10) (Nat.succ_pos n)]

theorem digitChar_inj10 : ∀ a b : Fin 10, Nat.digitChar a.val = Nat.digitChar b.val → a = b := by
  decide

theorem map_digitChar_inj : ∀ l1 l2 : List Nat, (∀ d ∈ l1, d < 10) → (∀ d ∈ l2, d < 10) →
    l1.map Nat.digitChar = l2.map Nat.digitChar → l1 = l2 := by
  intro l1
  induction l1 with
  | nil =>
      intro l2 _ _ h
      cases l2 with
      | nil => rfl
      | cons b l2 => simp at h
  | cons a l1 ih =>
      intro l2 h1 h2 h
      cases l2 with
      | nil => simp at h
      | cons b l2 =>
          simp only [List.map_cons, List.cons.injEq] at h
          have ha : a < 10 := h1 a (by simp)
          have hb : b < 10 := h2 b (by simp)
          have hab : a = b := by
            have h3 := digitChar_inj10 ⟨a, ha⟩ ⟨b, hb⟩ h.1
            exact congrArg Fin.val h3
          rw [hab, ih l2 (fun d hd => h1 d (by simp [hd]))
            (fun d hd => h2 d (by simp [hd])) h.2]

theorem asString_inj (l1 l2 : List Char) (h : l1.asString = l2.asString) : l1 = l2 :=
  congrArg String.data h

theorem decStr_inj (m n : Nat) (h : decStr m = decStr n) : m = n := by
  have hrender : ∀ k : Nat, k ≠ 0 →
      decStr k = ((Nat.digits 10 k).reverse.map Nat.digitChar).asString := by
    intro k hk
    rw [decStr, if_neg hk, decDigits_eq_digits k k le_rfl]
  have hbound : ∀ k : Nat, ∀ d ∈ (Nat.digits 10 k).reverse, d < 10 := by
    intro k d hd
    exact Nat.digits_lt_base (by norm_num) (List.mem_reverse.mp hd)
  have hzero : ∀ k : Nat, k ≠ 0 → decStr 0 = decStr k → False := by
    intro k hk hzk
    rw [decStr, if_pos rfl, hrender k hk] at hzk
    have h0 : ("0" : String) = (['0'] : List Char).asString := by decide
    rw [h0] at hzk
    have h1 := asString_inj _ _ hzk
    have h2 : ([0] : List Nat).map Nat.digitChar = ['0'] := by decide
    have h3 : ([0] : List Nat) = (Nat.digits 10 k).reverse := by
      refine map_digitChar_inj _ _ (by simp) (hbound k) ?_
      rw [h2, h1]
    have h4 : Nat.digits 10 k = [0] := by
      rw [← List.reverse_reverse (Nat.digits 10 k), ← h3]
      rfl
    have h5 := Nat.ofDigits_digits 10 k
    rw [h4] at h5
    simp [Nat.ofDigits] at h5
    exact hk h5.symm
  by_cases hm : m = 0 <;> by_cases hn : n = 0
  · rw [hm, hn]
  · exact absurd (hzero n hn (hm ▸ h)) id
  · exact absurd (hzero m hm (hn ▸ h.symm)) id
  · rw [hrender m hm, hrender n hn] at h
    have h1 := asString_inj _ _ h
    have h2 := map_digitChar_inj _ _ (hbound m) (hbound n) h1
    have h3 : Nat.digits 10 m = Nat.digits 10 n := by
      rw [← List.reverse_reverse (Nat.digits 10 m), h2, List.reverse_reverse]
    have h4 := congrArg (Nat.ofDigits 10) h3
    simpa [Nat.ofDigits_digits] using h4

theorem cluster_context_name_inj (i j : Nat)
    (h : cluster_context_name i = cluster_context_name j) : i = j := by
  apply decStr_inj
  have h2 := congrArg String.data h
  rw [cluster_context_name, cluster_context_name, String.data_append,
    String.data_append] at h2
  exact String.ext (List.append_cancel_left h2)

theorem bumpCount_eq_set : ∀ (l : List (String × Nat)) (j : Nat) (hj : j < l.length)
    (cur : String), (l.get ⟨j, hj⟩).1 = cur →
    (∀ i (hi : i < l.length), i < j → (l.get ⟨i, hi⟩).1 ≠ cur) →
    bumpCount l cur = l.set j (cur, (l.get ⟨j, hj⟩).2 + 1) := by
  intro l
  induction l with
  | nil => intro j hj; exact absurd hj (by simp)
  | cons a l ih =>
      intro j hj cur hkey hprev
      cases j with
      | zero =>
          rcases a with ⟨n, c⟩
          simp only [List.get] at hkey
          rw [bumpCount, if_pos hkey]
          simp [List.set, hkey]
      | succ j =>
          rcases a with ⟨n, c⟩
          have hne : n ≠ cur := by
            have h0 := hprev 0 (by simp) (Nat.succ_pos j)
            simpa using h0
          rw [bumpCount, if_neg hne]
          simp only [List.set, List.cons.injEq, true_and]
          have hj' : j < l.length := by simpa using hj
          rw [ih j hj' cur (by simpa using hkey)
            (fun i hi hij => by
              have h0 := hprev (i + 1) (by simpa using hi) (Nat.succ_lt_succ hij)
              simpa using h0)]
          rfl

theorem countOf_eq_get : ∀ (l : List (String × Nat)) (j : Nat) (hj : j < l.length)
    (cur : String), (l.get ⟨j, hj⟩).1 = cur →
    (∀ i (hi : i < l.length), i < j → (l.get ⟨i, hi⟩).1 ≠ cur) →
    countOf l cur = (l.get ⟨j, hj⟩).2 := by
  intro l
  induction l with
  | nil => intro j hj; exact absurd hj (by simp)
  | cons a l ih =>
      intro j hj cur hkey hprev
      cases j with
      | zero =>
          rcases a with ⟨n, c⟩
          simp only [List.get] at hkey
          simp [countOf, List.find?_cons, hkey]
      | succ j =>
          rcases a with ⟨n, c⟩
          have hne : n ≠ cur := by
            have h0 := hprev 0 (by simp) (Nat.succ_pos j)
            simpa using h0
          have hj' : j < l.length := by simpa using hj
          have hrec := ih j hj' cur (by simpa using hkey)
            (fun i hi hij => by
              have h0 := hprev (i + 1) (by simpa using hi) (Nat.succ_lt_succ hij)
              simpa using h0)
          simp only [countOf, List.find?_cons] at hrec ⊢
          rw [show decide (n = cur) = false from decide_eq_false hne]
          dsimp only
          simpa using hrec

theorem acquireAll_succ (bound n : Nat) : acquireAll bound (n + 1) =
    ((acquireAll bound n).1 ++ [(_get_cluster bound (acquireAll bound n).2).1],
      (_get_cluster bound (acquireAll bound n).2).2) := by
  rcases h1 : acquireAll bound n with ⟨tr, p⟩
  rcases h2 : _get_cluster bound p with ⟨nm, p'⟩
  rw [acquireAll, h1]
  dsimp only
  rw [h2]

theorem pool_alloc_case (bound : Nat) (hb : 1 ≤ bound) (tr : List String)
    (cl : List (String × Nat))
    (h1 : ∀ i (hi : i < cl.length), (cl.get ⟨i, hi⟩).1 = cluster_context_name i)
    (h2 : ∀ e ∈ cl, 1 ≤ e.2 ∧ e.2 ≤ bound)
    (h3 : ∀ e ∈ cl, tr.count e.1 = e.2)
    (h4 : ∀ s ∈ tr, ∃ e ∈ cl, e.1 = s) :
    (∀ i (hi : i < (cl ++ [(cluster_context_name cl.length, 1)]).length),
        ((cl ++ [(cluster_context_name cl.length, 1)]).get ⟨i, hi⟩).1 =
          cluster_context_name i) ∧
    (∀ e ∈ cl ++ [(cluster_context_name cl.length, 1)], 1 ≤ e.2 ∧ e.2 ≤ bound) ∧
    (∀ e ∈ cl ++ [(cluster_context_name cl.length, 1)],
        (tr ++ [cluster_context_name cl.length]).count e.1 = e.2) ∧
    (∀ s ∈ tr ++ [cluster_context_name cl.length],
        ∃ e ∈ cl ++ [(cluster_context_name cl.length, 1)], e.1 = s) ∧
    (∀ c, some (cluster_context_name cl.length) = some c →
        0 < (cl ++ [(cluster_context_name cl.length, 1)]).length ∧
        c = cluster_context_name
          ((cl ++ [(cluster_context_name cl.length, 1)]).length - 1)) := by
  have hnotin : cluster_context_name cl.length ∉ tr := by
    intro hmem
    rcases h4 _ hmem with ⟨e, he, hfst⟩
    rcases List.mem_iff_get.mp he with ⟨⟨i, hi⟩, hget⟩
    have hkey : e.1 = cluster_context_name i := by rw [← hget]; exact h1 i hi
    have := cluster_context_name_inj cl.length i (by rw [← hfst, hkey])
    omega
  have hkey_ne : ∀ e ∈ cl, e.1 ≠ cluster_context_name cl.length := by
    intro e he heq
    rcases List.mem_iff_get.mp he with ⟨⟨i, hi⟩, hget⟩
    have hkey : e.1 = cluster_context_name i := by rw [← hget]; exact h1 i hi
    have := cluster_context_name_inj i cl.length (by rw [← hkey, heq])
    omega
  refine ⟨?_, ?_, ?_, ?_, ?_⟩
  · intro i hi
    have hi' : i < cl.length + 1 := by simpa using hi
    rw [List.get_eq_getElem]
    by_cases hic : i < cl.length
    · rw [List.getElem_append_left hic]
      have := h1 i hic
      rwa [List.get_eq_getElem] at this
    · have hieq : i = cl.length := by omega
      subst hieq
      rw [List.getElem_append_right (le_refl cl.length)]
      simp
  · intro e he
    rcases List.mem_append.mp he with he | he
    · exact h2 e he
    · rcases List.mem_singleton.mp he with rfl
      exact ⟨le_refl 1, hb⟩
  · intro e he
    rcases List.mem_append.mp he with he | he
    · have hne := hkey_ne e he
      have hz : List.count e.1 [cluster_context_name cl.length] = 0 :=
        List.count_eq_zero_of_not_mem (by simp [hne])
      rw [List.count_append, hz, Nat.add_zero]
      exact h3 e he
    · rcases List.mem_singleton.mp he with rfl
      have hz : List.count (cluster_context_name cl.length) tr = 0 :=
        List.count_eq_zero_of_not_mem hnotin
      rw [List.count_append, hz, Nat.zero_add]
      simp
  · intro s hs
    rcases List.mem_append.mp hs with hs | hs
    · rcases h4 s hs with ⟨e, he, hfst⟩
      exact ⟨e, List.mem_append_left _ he, hfst⟩
    · rcases List.mem_singleton.mp hs with rfl
      exact ⟨(cluster_context_name cl.length, 1),
        List.mem_append_right _ (by simp), rfl⟩
  · intro c hc
    rcases Option.some.inj hc with rfl
    constructor
    · simp
    · simp

theorem pool_step (bound : Nat) (hb : 1 ≤ bound) (tr : List String)
    (cl : List (String × Nat)) (curo : Option String)
    (h1 : ∀ i (hi : i < cl.length), (cl.get ⟨i, hi⟩).1 = cluster_context_name i)
    (h2 : ∀ e ∈ cl, 1 ≤ e.2 ∧ e.2 ≤ bound)
    (h3 : ∀ e ∈ cl, tr.count e.1 = e.2)
    (h4 : ∀ s ∈ tr, ∃ e ∈ cl, e.1 = s)
    (h5 : ∀ c, curo = some c →
        0 < cl.length ∧ c = cluster_context_name (cl.length - 1)) :
    (∀ i (hi : i < (_get_cluster bound ⟨cl, curo⟩).2.clusters.length),
        ((_get_cluster bound ⟨cl, curo⟩).2.clusters.get ⟨i, hi⟩).1 =
          cluster_context_name i) ∧
    (∀ e ∈ (_get_cluster bound ⟨cl, curo⟩).2.clusters, 1 ≤ e.2 ∧ e.2 ≤ bound) ∧
    (∀ e ∈ (_get_cluster bound ⟨cl, curo⟩).2.clusters,
        (tr ++ [(_get_cluster bound ⟨cl, curo⟩).1]).count e.1 = e.2) ∧
    (∀ s ∈ tr ++ [(_get_cluster bound ⟨cl, curo⟩).1],
        ∃ e ∈ (_get_cluster bound ⟨cl, curo⟩).2.clusters, e.1 = s) ∧
    (∀ c, (_get_cluster bound ⟨cl, curo⟩).2.current_cluster = some c →
        0 < (_get_cluster bound ⟨cl, curo⟩).2.clusters.length ∧
        c = cluster_context_name
          ((_get_cluster bound ⟨cl, curo⟩).2.clusters.length - 1)) := by
  cases curo with
  | none =>
      have hg : _get_cluster bound ⟨cl, none⟩ =
          (cluster_context_name cl.length,
            ⟨cl ++ [(cluster_context_name cl.length, 1)],
             some (cluster_context_name cl.length)⟩) := rfl
      rw [hg]
      exact pool_alloc_case bound hb tr cl h1 h2 h3 h4
  | some cur =>
      obtain ⟨hpos, hcur⟩ := h5 cur rfl
      by_cases hge : countOf cl cur ≥ bound
      · have hg : _get_cluster bound ⟨cl, some cur⟩ =
            (cluster_context_name cl.length,
              ⟨cl ++ [(cluster_context_name cl.length, 1)],
               some (cluster_context_name cl.length)⟩) := by
          simp only [_get_cluster]
          rw [if_pos hge]
          rfl
        rw [hg]
        exact pool_alloc_case bound hb tr cl h1 h2 h3 h4
      · have hg : _get_cluster bound ⟨cl, some cur⟩ =
            (cur, ⟨bumpCount cl cur, some cur⟩) := by
          simp only [_get_cluster]
          rw [if_neg hge]
        rw [hg]
        dsimp only
        have hj : cl.length - 1 < cl.length := by omega
        have hkey : (cl.get ⟨cl.length - 1, hj⟩).1 = cur := by
          rw [h1 (cl.length - 1) hj]; exact hcur.symm
        have hprev : ∀ i (hi : i < cl.length), i < cl.length - 1 →
            (cl.get ⟨i, hi⟩).1 ≠ cur := by
          intro i hi hilt heq
          rw [h1 i hi, hcur] at heq
          have := cluster_context_name_inj i (cl.length - 1) heq
          omega
        have hne_gen : ∀ i (hi : i < cl.length), i ≠ cl.length - 1 →
            (cl.get ⟨i, hi⟩).1 ≠ cur := by
          intro i hi hilt heq
          rw [h1 i hi, hcur] at heq
          have := cluster_context_name_inj i (cl.length - 1) heq
          omega
        have hbump : bumpCount cl cur =
            cl.set (cl.length - 1) (cur, (cl.get ⟨cl.length - 1, hj⟩).2 + 1) :=
          bumpCount_eq_set cl (cl.length - 1) hj cur hkey hprev
        have hcnt : countOf cl cur = (cl.get ⟨cl.length - 1, hj⟩).2 :=
          countOf_eq_get cl (cl.length - 1) hj cur hkey hprev
        have hcjlt : (cl.get ⟨cl.length - 1, hj⟩).2 < bound := by
          rw [← hcnt]; exact not_le.mp hge
        have htrcur : tr.count cur = (cl.get ⟨cl.length - 1, hj⟩).2 := by
          have := h3 (cl.get ⟨cl.length - 1, hj⟩) (List.get_mem cl (cl.length - 1) hj)
          rwa [hkey] at this
        refine ⟨?_, ?_, ?_, ?_, ?_⟩
        · intro i hi
          have hi' : i < cl.length := by simpa [hbump] using hi
          rw [List.get_eq_getElem]
          simp only [hbump, List.getElem_set]
          by_cases hij : cl.length - 1 = i
          · rw [if_pos hij]
            dsimp only
            rw [hcur, hij]
          · rw [if_neg hij]
            have := h1 i hi'
            rwa [List.get_eq_getElem] at this
        · intro e he
          rw [hbump] at he
          rcases List.mem_iff_getElem.mp he with ⟨i, hi, hget⟩
          have hi' : i < cl.length := by simpa using hi
          rw [List.getElem_set] at hget
          by_cases hij : cl.length - 1 = i
          · rw [if_pos hij] at hget
            rw [← hget]
            exact ⟨Nat.succ_le_succ (Nat.zero_le _), hcjlt⟩
          · rw [if_neg hij] at hget
            rw [← hget]
            exact h2 _ (List.getElem_mem hi')
        · intro e he
          rw [hbump] at he
          rcases List.mem_iff_getElem.mp he with ⟨i, hi, hget⟩
          have hi' : i < cl.length := by simpa using hi
          rw [List.getElem_set] at hget
          by_cases hij : cl.length - 1 = i
          · rw [if_pos hij] at hget
            rw [← hget]
            rw [List.count_append, htrcur]
            simp
          · rw [if_neg hij] at hget
            have hne : (cl.get ⟨i, hi'⟩).1 ≠ cur := hne_gen i hi' (fun h => hij h.symm)
            rw [← hget]
            have hz : List.count cl[i].1 [cur] = 0 := by
              apply List.count_eq_zero_of_not_mem
              simp only [List.mem_singleton]
              rw [← List.get_eq_getElem cl ⟨i, hi'⟩]
              exact hne
            rw [List.count_append, hz, Nat.add_zero]
            have := h3 (cl.get ⟨i, hi'⟩) (List.get_mem cl i hi')
            rwa [List.get_eq_getElem] at this
        · intro s hs
          rw [hbump]
          rcases List.mem_append.mp hs with hs | hs
          · rcases h4 s hs with ⟨e, he, hfst⟩
            rcases List.mem_iff_getElem.mp he with ⟨i, hi', hget⟩
            have hi2 : i < (cl.set (cl.length - 1)
                (cur, (cl.get ⟨cl.length - 1, hj⟩).2 + 1)).length := by simpa using hi'
            refine ⟨(cl.set (cl.length - 1)
              (cur, (cl.get ⟨cl.length - 1, hj⟩).2 + 1))[i], List.getElem_mem hi2, ?_⟩
            rw [List.getElem_set]
            by_cases hij : cl.length - 1 = i
            · rw [if_pos hij]
              have : e.1 = cur := by
                rw [← hget, ← List.get_eq_getElem cl ⟨i, hi'⟩]
                rw [h1 i hi', hcur, hij]
              rw [← hfst, ← this]
            · rw [if_neg hij, hget, hfst]
          · have hs' : s = cur := List.mem_singleton.mp hs
            have hj2 : cl.length - 1 < (cl.set (cl.length - 1)
                (cur, (cl.get ⟨cl.length - 1, hj⟩).2 + 1)).length := by simpa using hj
            refine ⟨(cl.set (cl.length - 1)
              (cur, (cl.get ⟨cl.length - 1, hj⟩).2 + 1))[cl.length - 1],
              List.getElem_mem hj2, ?_⟩
            rw [List.getElem_set, if_pos rfl, hs']
        · intro c hc
          rcases Option.some.inj hc with rfl
          rw [hbump, List.length_set]
          exact ⟨hpos, hcur⟩

theorem acquireAll_inv (bound : Nat) (hb : 1 ≤ bound) (n : Nat) :
    (∀ i (hi : i < (acquireAll bound n).2.clusters.length),
        ((acquireAll bound n).2.clusters.get ⟨i, hi⟩).1 = cluster_context_name i) ∧
    (∀ e ∈ (acquireAll bound n).2.clusters, 1 ≤ e.2 ∧ e.2 ≤ bound) ∧
    (∀ e ∈ (acquireAll bound n).2.clusters,
        (acquireAll bound n).1.count e.1 = e.2) ∧
    (∀ s ∈ (acquireAll bound n).1,
        ∃ e ∈ (acquireAll bound n).2.clusters, e.1 = s) ∧
    (∀ c, (acquireAll bound n).2.current_cluster = some c →
        0 < (acquireAll bound n).2.clusters.length ∧
        c = cluster_context_name ((acquireAll bound n).2.clusters.length - 1)) := by
  induction n with
  | zero =>
      refine ⟨?_, ?_, ?_, ?_, ?_⟩ <;> simp [acquireAll, init_cluster_context]
  | succ n ih =>
      obtain ⟨h1, h2, h3, h4, h5⟩ := ih
      have hstep := pool_step bound hb (acquireAll bound n).1
        (acquireAll bound n).2.clusters (acquireAll bound n).2.current_cluster
        h1 h2 h3 h4 h5
      rw [acquireAll_succ]
      exact hstep

theorem length_bumpCount (l : List (String × Nat)) (name : String) :
    (bumpCount l name).length = l.length := by
  induction l with
  | nil => rfl
  | cons e rest ih =>
      rcases e with ⟨nm, c⟩
      rw [bumpCount]
      by_cases h : nm = name
      · rw [if_pos h]
        rfl
      · rw [if_neg h]
        simp [ih]

theorem get_cluster_length_ge (bound : Nat) (p : ClusterPool) :
    p.clusters.length ≤ (_get_cluster bound p).2.clusters.length := by
  rcases p with ⟨cl, curo⟩
  cases curo with
  | none =>
      have hg : _get_cluster bound ⟨cl, none⟩ =
          (cluster_context_name cl.length,
            ⟨cl ++ [(cluster_context_name cl.length, 1)],
             some (cluster_context_name cl.length)⟩) := rfl
      rw [hg]
      simp
  | some cur =>
      by_cases hge : countOf cl cur ≥ bound
      · have hg : _get_cluster bound ⟨cl, some cur⟩ =
            (cluster_context_name cl.length,
              ⟨cl ++ [(cluster_context_name cl.length, 1)],
               some (cluster_context_name cl.length)⟩) := by
          simp only [_get_cluster]
          rw [if_pos hge]
          rfl
        rw [hg]
        simp
      · have hg : _get_cluster bound ⟨cl, some cur⟩ =
            (cur, ⟨bumpCount cl cur, some cur⟩) := by
          simp only [_get_cluster]
          rw [if_neg hge]
        rw [hg]
        exact le_of_eq (length_bumpCount cl cur).symm

/-- C9: starting from the initial empty cluster-context pool, after any
number `n` of `_get_cluster` acquisitions with configured bound
`bdevs_per_cluster = bound ≥ 1`: every context's volume counter stays
between 1 and `bound`; every context name handed out appears in the trace
of handed-out names at most `bound` times; the context at position `i` of
the pool is named `cluster_context_<i>` (sequential naming), so the pool's
names are pairwise distinct; and every context present after `n`
acquisitions is still present (same name) after one more acquisition —
contexts are never removed. -/
theorem C9_cluster_pool (bound n : Nat) (hb : 1 ≤ bound) :
    (∀ e ∈ (acquireAll bound n).2.clusters, 1 ≤ e.2 ∧ e.2 ≤ bound) ∧
    (∀ s ∈ (acquireAll bound n).1, (acquireAll bound n).1.count s ≤ bound) ∧
    (∀ i (hi : i < (acquireAll bound n).2.clusters.length),
        ((acquireAll bound n).2.clusters.get ⟨i, hi⟩).1 = cluster_context_name i) ∧
    ((acquireAll bound n).2.clusters.map Prod.fst).Nodup ∧
    (∀ e ∈ (acquireAll bound n).2.clusters,
        ∃ e' ∈ (acquireAll bound (n + 1)).2.clusters, e'.1 = e.1) := by
  obtain ⟨h1, h2, h3, h4, h5⟩ := acquireAll_inv bound hb n
  obtain ⟨g1, g2, g3, g4, g5⟩ := acquireAll_inv bound hb (n + 1)
  refine ⟨h2, ?_, h1, ?_, ?_⟩
  · intro s hs
    rcases h4 s hs with ⟨e, he, hfst⟩
    rw [← hfst, h3 e he]
    exact (h2 e he).2
  · rw [List.nodup_iff_injective_getElem]
    intro a b hab
    have hla : a.1 < (acquireAll bound n).2.clusters.length := by
      have := a.2
      simpa using this
    have hlb : b.1 < (acquireAll bound n).2.clusters.length := by
      have := b.2
      simpa using this
    simp only [List.getElem_map] at hab
    have ha1 := h1 a.1 hla
    have hb1 := h1 b.1 hlb
    rw [List.get_eq_getElem] at ha1 hb1
    rw [ha1, hb1] at hab
    exact Fin.ext (cluster_context_name_inj _ _ hab)
  · intro e he
    rcases List.mem_iff_getElem.mp he with ⟨i, hi, hget⟩
    have hlen : (acquireAll bound n).2.clusters.length ≤
        (acquireAll bound (n + 1)).2.clusters.length := by
      rw [acquireAll_succ]
      exact get_cluster_length_ge bound (acquireAll bound n).2
    have hi' : i < (acquireAll bound (n + 1)).2.clusters.length :=
      lt_of_lt_of_le hi hlen
    refine ⟨(acquireAll bound (n + 1)).2.clusters[i], List.getElem_mem hi', ?_⟩
    have hg1 := g1 i hi'
    rw [List.get_eq_getElem] at hg1
    have hh1 := h1 i hi
    rw [List.get_eq_getElem] at hh1
    rw [hg1, ← hget, hh1]

/-- Witness for C9 at `bound = 2`, `n = 5`. -/
theorem C9_cluster_pool_witness :
    1 ≤ 2 ∧
    ((∀ e ∈ (acquireAll 2 5).2.clusters, 1 ≤ e.2 ∧ e.2 ≤ 2) ∧
    (∀ s ∈ (acquireAll 2 5).1, (acquireAll 2 5).1.count s ≤ 2) ∧
    (∀ i (hi : i < (acquireAll 2 5).2.clusters.length),
        ((acquireAll 2 5).2.clusters.get ⟨i, hi⟩).1 = cluster_context_name i) ∧
    ((acquireAll 2 5).2.clusters.map Prod.fst).Nodup ∧
    (∀ e ∈ (acquireAll 2 5).2.clusters,
        ∃ e' ∈ (acquireAll 2 (5 + 1)).2.clusters, e'.1 = e.1)) :=
  ⟨by decide, C9_cluster_pool 2 5 (by decide)⟩

end NvmeofGw
